import Mathlib

/-!
Verification development for the MCPBidInfo tender crawler.

The Python sources under scrutiny are `app.py` (canonical `Tender` record,
upsert persistence, the UNGM / SAM / TED source adapters and the crawl
orchestrator) and the `ted_ungm_search` package (`ted_client.py` with
`build_query`, `_request_with_iteration_token`, `iterate_all`, and
`models.py` with `_extract_results`).  Every definition below is a direct
shallow embedding of the corresponding Python function; stateful pieces
(the SQLite upsert, the HTTP oracles) are modelled by explicit state
passing and explicit request/response values.
-/

namespace MCPBid

/-! ### Python string primitives

Python `str.strip`, `str.upper`, `str.lower`, substring membership and
`str.replace` are modelled on `List Char` so that every definition is
kernel-executable. -/

def isPyWS (c : Char) : Bool :=
  c = ' ' || c = '\t' || c = '\n' || c = '\r' || c = '\x0b' || c = '\x0c'

def pyStripChars (cs : List Char) : List Char :=
  ((cs.dropWhile isPyWS).reverse.dropWhile isPyWS).reverse

def pyStrip (s : String) : String :=
  String.mk (pyStripChars s.data)

def pyUpper (s : String) : String :=
  String.mk (s.data.map Char.toUpper)

def pyLower (s : String) : String :=
  String.mk (s.data.map Char.toLower)

def startsWithChars : List Char → List Char → Bool
  | _, [] => true
  | [], _ :: _ => false
  | c :: cs, p :: ps => c = p && startsWithChars cs ps

def containsChars : List Char → List Char → Bool
  | [], needle => needle.isEmpty
  | c :: cs, needle => startsWithChars (c :: cs) needle || containsChars cs needle

def containsSub (hay needle : String) : Bool :=
  containsChars hay.data needle.data

def charMem (s : String) (c : Char) : Bool :=
  s.data.contains c

/-! ### ted_client.build_query

Direct embedding of `ted_ungm_search/ted_client.py::build_query`.  Dates
arrive as strings (the `str` branch of `_format_date`); absent optional
groups are the empty list, which is exactly how Python treats `None` and
`[]` under the `if countries:` truthiness tests. -/

def dateClause (dateFrom dateTo : String) : String :=
  "publication-date:[" ++ dateFrom ++ " TO " ++ dateTo ++ "]"

def countryClauses (countries : List String) : List String :=
  countries.filterMap (fun code =>
    let codeClean := pyUpper (pyStrip code)
    if codeClean = "" then none
    else some ("(place-of-performance.country:" ++ codeClean ++
      " OR buyer-country:" ++ codeClean ++ ")"))

def cpvClauses (cpvPrefixes : List String) : List String :=
  cpvPrefixes.filterMap (fun pref =>
    let prefClean := pyStrip pref
    if prefClean = "" then none
    else some ("classification-cpv:" ++ prefClean))

def keywordTokens (keywords : List String) : List String :=
  keywords.filterMap (fun word =>
    let token := pyStrip word
    if token = "" then none
    else if charMem token ' ' || charMem token ':' then
      some ("\"" ++ token ++ "\"")
    else some token)

def formTypeTokens (formTypes : List String) : List String :=
  formTypes.filterMap (fun ft =>
    let token := pyStrip ft
    if token = "" then none
    else some token)

def build_query (dateFrom dateTo : String)
    (countries cpvPrefixes keywords formTypes : List String) : String :=
  let clauses : List String := [dateClause dateFrom dateTo]
  let clauses := clauses ++
    (if countries.isEmpty then []
     else
       let cc := countryClauses countries
       if cc.isEmpty then []
       else ["(" ++ String.intercalate " OR " cc ++ ")"])
  let clauses := clauses ++
    (if cpvPrefixes.isEmpty then []
     else
       let cc := cpvClauses cpvPrefixes
       if cc.isEmpty then []
       else ["(" ++ String.intercalate " OR " cc ++ ")"])
  let clauses := clauses ++
    (if keywords.isEmpty then []
     else
       let kt := keywordTokens keywords
       if kt.isEmpty then []
       else ["title:(" ++ String.intercalate " OR " kt ++ ")"])
  let clauses := clauses ++
    (if formTypes.isEmpty then []
     else
       let ft := formTypeTokens formTypes
       if ft.isEmpty then []
       else ["form-type:(" ++ String.intercalate " OR " ft ++ ")"])
  String.intercalate " AND " clauses

/-- Optional clause group contributed by the country filter, written the
way the specification describes it: nothing when the cleaned group is
empty, otherwise one parenthesised OR-clause. -/
def countryGroup (countries : List String) : List String :=
  if countries.isEmpty then []
  else
    let cc := countryClauses countries
    if cc.isEmpty then []
    else ["(" ++ String.intercalate " OR " cc ++ ")"]

/-- Optional clause group for the CPV category filter. -/
def cpvGroup (cpvPrefixes : List String) : List String :=
  if cpvPrefixes.isEmpty then []
  else
    let cc := cpvClauses cpvPrefixes
    if cc.isEmpty then []
    else ["(" ++ String.intercalate " OR " cc ++ ")"]

/-- Optional clause group for the keyword filter. -/
def keywordGroup (keywords : List String) : List String :=
  if keywords.isEmpty then []
  else
    let kt := keywordTokens keywords
    if kt.isEmpty then []
    else ["title:(" ++ String.intercalate " OR " kt ++ ")"]

/-- Optional clause group for the form-type filter. -/
def formTypeGroup (formTypes : List String) : List String :=
  if formTypes.isEmpty then []
  else
    let ft := formTypeTokens formTypes
    if ft.isEmpty then []
    else ["form-type:(" ++ String.intercalate " OR " ft ++ ")"]

/-! ### Python datetime model

A `PyDateTime` is a naive or offset-aware civil timestamp, exactly the
data carried by `datetime.datetime`.  `tzOffsetSeconds = none` models a
naive value. -/

structure PyDateTime where
  year : Nat
  month : Nat
  day : Nat
  hour : Nat
  minute : Nat
  second : Nat
  microsecond : Nat
  tzOffsetSeconds : Option Int
deriving DecidableEq

def isLeapYear (y : Nat) : Bool :=
  y % 4 = 0 && (y % 100 ≠ 0 || y % 400 = 0)

def daysInMonth (y m : Nat) : Nat :=
  if m = 1 then 31
  else if m = 2 then (if isLeapYear y then 29 else 28)
  else if m = 3 then 31
  else if m = 4 then 30
  else if m = 5 then 31
  else if m = 6 then 30
  else if m = 7 then 31
  else if m = 8 then 31
  else if m = 9 then 30
  else if m = 10 then 31
  else if m = 11 then 30
  else 31

/-- Days since 1970-01-01 of the civil date (y, m, d), for y at least 1
(the proleptic Gregorian calendar used by `datetime`). -/
def daysFromCivil (y m d : Nat) : Int :=
  let yAdj := if m ≤ 2 then y - 1 else y
  let era := yAdj / 400
  let yoe := yAdj % 400
  let mp := (m + 9) % 12
  let doy := (153 * mp + 2) / 5 + (d - 1)
  let doe := yoe * 365 + yoe / 4 - yoe / 100 + doy
  (((era * 146097 + doe : Nat) : Int)) - 719468

/-- Civil date from a nonnegative count of days since 1970-01-01. -/
def civilFromDays (z0 : Nat) : Nat × Nat × Nat :=
  let z := z0 + 719468
  let era := z / 146097
  let doe := z % 146097
  let yoe := (doe - doe / 1460 + doe / 36524 - doe / 146096) / 365
  let y := yoe + era * 400
  let doy := doe - (365 * yoe + yoe / 4 - yoe / 100)
  let mp := (5 * doy + 2) / 153
  let d := doy - (153 * mp + 2) / 5 + 1
  let m := if mp < 10 then mp + 3 else mp - 9
  (if m ≤ 2 then y + 1 else y, m, d)

/-- Embedding of `datetime.utcfromtimestamp(milliseconds / 1000.0)` for a
nonnegative integral number of milliseconds: a naive UTC timestamp. -/
def utcfromtimestampMillis (ms : Nat) : PyDateTime :=
  let secs := ms / 1000
  let days := secs / 86400
  let rem := secs % 86400
  let ymd := civilFromDays days
  { year := ymd.1
    month := ymd.2.1
    day := ymd.2.2
    hour := rem / 3600
    minute := rem % 3600 / 60
    second := rem % 60
    microsecond := ms % 1000 * 1000
    tzOffsetSeconds := none }

/-- The UTC instant of a timestamp in microseconds since the epoch; a
naive timestamp is read as UTC. -/
def utcInstantMicros (dt : PyDateTime) : Int :=
  daysFromCivil dt.year dt.month dt.day * 86400000000 +
    ((dt.hour * 3600 + dt.minute * 60 + dt.second) * 1000000 +
      dt.microsecond : Nat) -
    (dt.tzOffsetSeconds.getD 0) * 1000000

/-! ### Character-level parsing primitives -/

def digitVal (c : Char) : Nat := c.toNat - 48

def parseNDigits : Nat → List Char → Option (Nat × List Char)
  | 0, cs => some (0, cs)
  | _ + 1, [] => none
  | n + 1, c :: cs =>
      if c.isDigit then
        (parseNDigits n cs).map (fun p => (digitVal c * 10 ^ n + p.1, p.2))
      else none

def expectChar (c : Char) : List Char → Option (List Char)
  | [] => none
  | x :: xs => if x = c then some xs else none

def digitsToNat (cs : List Char) : Nat :=
  cs.foldl (fun a c => a * 10 + digitVal c) 0

/-- Replace every occurrence of a pattern, scanning left to right without
overlap: the semantics of Python `str.replace` for a nonempty pattern
(an empty pattern leaves the text unchanged here; all uses below pass
nonempty patterns). -/
def replaceCharsAux (pat repl : List Char) : Nat → List Char → List Char
  | 0, cs => cs
  | _ + 1, [] => []
  | fuel + 1, c :: cs =>
      if pat.isEmpty then c :: cs
      else if startsWithChars (c :: cs) pat then
        repl ++ replaceCharsAux pat repl fuel ((c :: cs).drop pat.length)
      else
        c :: replaceCharsAux pat repl fuel cs

def replaceChars (pat repl cs : List Char) : List Char :=
  replaceCharsAux pat repl cs.length cs

/-! ### datetime.fromisoformat

Embedding of CPython `datetime.fromisoformat` (the strict pre-3.11
grammar: `YYYY-MM-DD` then an arbitrary single separator character then
`HH[:MM[:SS[.fff[fff]]]]` with an optional `+HH:MM[:SS[.ffffff]]` or
`-HH:MM[:SS[.ffffff]]` offset). -/

def parseHHMMSSFF (cs : List Char) : Option (Nat × Nat × Nat × Nat) :=
  match parseNDigits 2 cs with
  | none => none
  | some (h, rest1) =>
    match rest1 with
    | [] => some (h, 0, 0, 0)
    | c1 :: rest2 =>
      if c1 ≠ ':' then none
      else
        match parseNDigits 2 rest2 with
        | none => none
        | some (mi, rest3) =>
          match rest3 with
          | [] => some (h, mi, 0, 0)
          | c2 :: rest4 =>
            if c2 ≠ ':' then none
            else
              match parseNDigits 2 rest4 with
              | none => none
              | some (s, rest5) =>
                match rest5 with
                | [] => some (h, mi, s, 0)
                | c3 :: fracCs =>
                  if c3 ≠ '.' then none
                  else if fracCs.length = 3 && fracCs.all Char.isDigit then
                    some (h, mi, s, digitsToNat fracCs * 1000)
                  else if fracCs.length = 6 && fracCs.all Char.isDigit then
                    some (h, mi, s, digitsToNat fracCs)
                  else none

/-- Index of the first occurrence of a character, if any. -/
def charIndex (c : Char) : List Char → Option Nat
  | [] => none
  | x :: xs =>
      if x = c then some 0
      else (charIndex c xs).map (· + 1)

/-- Parse the time-of-day part of an ISO string, returning the time
components and the optional UTC offset in seconds.  Mirrors CPython
`_parse_isoformat_time`: the first `-` (else the first `+`) splits off
the timezone suffix, whose text must be 5, 8 or 15 characters long. -/
def parseIsoTime (cs : List Char) : Option (Nat × Nat × Nat × Nat × Option Int) :=
  let tzPos : Option Nat :=
    match charIndex '-' cs with
    | some i => some i
    | none => charIndex '+' cs
  match tzPos with
  | none =>
      (parseHHMMSSFF cs).map (fun t => (t.1, t.2.1, t.2.2.1, t.2.2.2, none))
  | some i =>
      let baseCs := cs.take i
      let signChar := cs.getD i ' '
      let tzCs := cs.drop (i + 1)
      match parseHHMMSSFF baseCs with
      | none => none
      | some t =>
        if tzCs.length = 5 || tzCs.length = 8 || tzCs.length = 15 then
          match parseHHMMSSFF tzCs with
          | none => none
          | some tz =>
              let mag : Int := (tz.1 * 3600 + tz.2.1 * 60 + tz.2.2.1 : Nat)
              let off : Int := if signChar = '-' then -mag else mag
              if off < 86400 ∧ -86400 < off then
                some (t.1, t.2.1, t.2.2.1, t.2.2.2, some off)
              else none
        else none

def validTime (h mi s us : Nat) : Bool :=
  h < 24 && mi < 60 && s < 60 && us < 1000000

def validDate (y m d : Nat) : Bool :=
  1 ≤ y && y ≤ 9999 && 1 ≤ m && m ≤ 12 && 1 ≤ d && d ≤ daysInMonth y m

def fromisoformat (str : String) : Option PyDateTime :=
  let cs := str.data
  match parseNDigits 4 cs with
  | none => none
  | some (y, r1) =>
    match expectChar '-' r1 with
    | none => none
    | some r2 =>
      match parseNDigits 2 r2 with
      | none => none
      | some (m, r3) =>
        match expectChar '-' r3 with
        | none => none
        | some r4 =>
          match parseNDigits 2 r4 with
          | none => none
          | some (d, r5) =>
            if !validDate y m d then none
            else
              match r5 with
              | [] =>
                  some ⟨y, m, d, 0, 0, 0, 0, none⟩
              | _ :: timeCs =>
                  match parseIsoTime timeCs with
                  | none => none
                  | some (h, mi, s, us, off) =>
                      if validTime h mi s us then
                        some ⟨y, m, d, h, mi, s, us, off⟩
                      else none

/-! ### strptime fragments used by _parse_ungm_date -/

/-- The CPython strptime pattern for a day of month: a two-digit value
01..31 is preferred, otherwise a single digit 1..9. -/
def parseDayField : List Char → Option (Nat × List Char)
  | c1 :: c2 :: rest =>
      if c1.isDigit && c2.isDigit then
        let v := digitVal c1 * 10 + digitVal c2
        if 1 ≤ v ∧ v ≤ 31 then some (v, rest)
        else if 1 ≤ digitVal c1 then some (digitVal c1, c2 :: rest)
        else none
      else if c1.isDigit && 1 ≤ digitVal c1 then some (digitVal c1, c2 :: rest)
      else none
  | [c1] => if c1.isDigit && 1 ≤ digitVal c1 then some (digitVal c1, []) else none
  | [] => none

/-- Strptime month number: 01..12 two-digit, else one digit 1..9. -/
def parseMonthField : List Char → Option (Nat × List Char)
  | c1 :: c2 :: rest =>
      if c1.isDigit && c2.isDigit then
        let v := digitVal c1 * 10 + digitVal c2
        if 1 ≤ v ∧ v ≤ 12 then some (v, rest)
        else if 1 ≤ digitVal c1 then some (digitVal c1, c2 :: rest)
        else none
      else if c1.isDigit && 1 ≤ digitVal c1 then some (digitVal c1, c2 :: rest)
      else none
  | [c1] => if c1.isDigit && 1 ≤ digitVal c1 then some (digitVal c1, []) else none
  | [] => none

/-- Strptime hour: 00..23 two-digit, else one digit. -/
def parseHourField : List Char → Option (Nat × List Char)
  | c1 :: c2 :: rest =>
      if c1.isDigit && c2.isDigit then
        let v := digitVal c1 * 10 + digitVal c2
        if v ≤ 23 then some (v, rest) else some (digitVal c1, c2 :: rest)
      else if c1.isDigit then some (digitVal c1, c2 :: rest)
      else none
  | [c1] => if c1.isDigit then some (digitVal c1, []) else none
  | [] => none

/-- Strptime minute or second: 00..59 two-digit, else one digit. -/
def parseMinSecField : List Char → Option (Nat × List Char)
  | c1 :: c2 :: rest =>
      if c1.isDigit && c2.isDigit then
        let v := digitVal c1 * 10 + digitVal c2
        if v ≤ 59 then some (v, rest) else some (digitVal c1, c2 :: rest)
      else if c1.isDigit then some (digitVal c1, c2 :: rest)
      else none
  | [c1] => if c1.isDigit then some (digitVal c1, []) else none
  | [] => none

/-- Strptime year: exactly four digits. -/
def parseYearField (cs : List Char) : Option (Nat × List Char) :=
  parseNDigits 4 cs

def monthAbbrevs : List (String × Nat) :=
  [("jan", 1), ("feb", 2), ("mar", 3), ("apr", 4), ("may", 5), ("jun", 6),
   ("jul", 7), ("aug", 8), ("sep", 9), ("oct", 10), ("nov", 11), ("dec", 12)]

/-- Strptime %b: a three-letter English month abbreviation, matched
case-insensitively. -/
def parseMonthAbbrev : List Char → Option (Nat × List Char)
  | c1 :: c2 :: c3 :: rest =>
      let key := String.mk [c1.toLower, c2.toLower, c3.toLower]
      match monthAbbrevs.find? (fun p => p.1 = key) with
      | some p => some (p.2, rest)
      | none => none
  | _ => none

def mkNaive (y m d h mi s : Nat) : Option PyDateTime :=
  if validDate y m d && validTime h mi s 0 then
    some ⟨y, m, d, h, mi, s, 0, none⟩
  else none

/-- Optional " %H:%M[:%S]" tail shared by several formats. -/
def parseClock (cs : List Char) (withSeconds : Bool) : Option (Nat × Nat × Nat) :=
  match parseHourField cs with
  | none => none
  | some (h, r1) =>
    match expectChar ':' r1 with
    | none => none
    | some r2 =>
      match parseMinSecField r2 with
      | none => none
      | some (mi, r3) =>
        if withSeconds then
          match expectChar ':' r3 with
          | none => none
          | some r4 =>
            match parseMinSecField r4 with
            | some (s, []) => some (h, mi, s)
            | _ => none
        else
          match r3 with
          | [] => some (h, mi, 0)
          | _ => none

def fmtDayAbbrevYear (cs : List Char) : Option PyDateTime :=
  match parseDayField cs with
  | none => none
  | some (d, r1) =>
    match expectChar '-' r1 with
    | none => none
    | some r2 =>
      match parseMonthAbbrev r2 with
      | none => none
      | some (m, r3) =>
        match expectChar '-' r3 with
        | none => none
        | some r4 =>
          match parseYearField r4 with
          | some (y, []) => mkNaive y m d 0 0 0
          | _ => none

def splitAtSpace (cs : List Char) : Option (List Char × List Char) :=
  match charIndex ' ' cs with
  | none => none
  | some i => some (cs.take i, cs.drop (i + 1))

def fmtDayAbbrevYearClock (cs : List Char) (withSeconds : Bool) : Option PyDateTime :=
  match splitAtSpace cs with
  | none => none
  | some (dateCs, clockCs) =>
    match fmtDayAbbrevYear dateCs with
    | none => none
    | some dt =>
      match parseClock clockCs withSeconds with
      | none => none
      | some (h, mi, s) => mkNaive dt.year dt.month dt.day h mi s

def fmtYMD (cs : List Char) : Option PyDateTime :=
  match parseYearField cs with
  | none => none
  | some (y, r1) =>
    match expectChar '-' r1 with
    | none => none
    | some r2 =>
      match parseMonthField r2 with
      | none => none
      | some (m, r3) =>
        match expectChar '-' r3 with
        | none => none
        | some r4 =>
          match parseDayField r4 with
          | some (d, []) => mkNaive y m d 0 0 0
          | _ => none

def fmtYMDClock (cs : List Char) (withSeconds : Bool) : Option PyDateTime :=
  match splitAtSpace cs with
  | none => none
  | some (dateCs, clockCs) =>
    match fmtYMD dateCs with
    | none => none
    | some dt =>
      match parseClock clockCs withSeconds with
      | none => none
      | some (h, mi, s) => mkNaive dt.year dt.month dt.day h mi s

def fmtDMYSlash (cs : List Char) : Option PyDateTime :=
  match parseDayField cs with
  | none => none
  | some (d, r1) =>
    match expectChar '/' r1 with
    | none => none
    | some r2 =>
      match parseMonthField r2 with
      | none => none
      | some (m, r3) =>
        match expectChar '/' r3 with
        | none => none
        | some r4 =>
          match parseYearField r4 with
          | some (y, []) => mkNaive y m d 0 0 0
          | _ => none

def fmtDMYSlashClock (cs : List Char) : Option PyDateTime :=
  match splitAtSpace cs with
  | none => none
  | some (dateCs, clockCs) =>
    match fmtDMYSlash dateCs with
    | none => none
    | some dt =>
      match parseClock clockCs false with
      | none => none
      | some (h, mi, s) => mkNaive dt.year dt.month dt.day h mi s

/-- The fixed fallback format list of `_parse_ungm_date`, tried in
source order with the first success winning. -/
def ungmFormatsResult (cs : List Char) : Option PyDateTime :=
  match fmtDayAbbrevYear cs with
  | some dt => some dt
  | none =>
  match fmtDayAbbrevYearClock cs false with
  | some dt => some dt
  | none =>
  match fmtDayAbbrevYearClock cs true with
  | some dt => some dt
  | none =>
  match fmtYMD cs with
  | some dt => some dt
  | none =>
  match fmtYMDClock cs false with
  | some dt => some dt
  | none =>
  match fmtYMDClock cs true with
  | some dt => some dt
  | none =>
  match fmtDMYSlash cs with
  | some dt => some dt
  | none => fmtDMYSlashClock cs

/-! ### The epoch wrapper and the trailing-parenthetical strip -/

/-- Search for the leftmost `/Date(millis)/` wrapper, the semantics of
`re.search` with the source pattern. -/
def findEpochMillis : List Char → Option Nat
  | [] => none
  | c :: cs =>
      if startsWithChars (c :: cs) "/Date(".data then
        let rest := (c :: cs).drop 6
        let digits := rest.takeWhile Char.isDigit
        let after := rest.dropWhile Char.isDigit
        if !digits.isEmpty && startsWithChars after ")/".data then
          some (digitsToNat digits)
        else findEpochMillis cs
      else findEpochMillis cs

def findOpenParenAux (orig : List Char) (j : Nat) : Nat → Nat → Option Nat
  | 0, _ => none
  | fuel + 1, i =>
      if i ≥ j then none
      else if orig.getD i ' ' = '(' &&
          ((orig.drop (i + 1)).take (j - i - 1)).all (fun c => c ≠ '\n') then
        some i
      else findOpenParenAux orig j fuel (i + 1)

/-- Strip one trailing parenthesised group, the effect of the source
substitution that deletes a final parenthetical (with the surrounding
whitespace) from the end of the string.  A string whose last
non-whitespace character is not a closing parenthesis is unchanged. -/
def stripTrailingParen (s : String) : String :=
  let cs := s.data
  let revCs := cs.reverse
  let trailWs := revCs.takeWhile isPyWS
  match revCs.dropWhile isPyWS with
  | ')' :: _ =>
      let j := cs.length - trailWs.length - 1
      match findOpenParenAux cs j cs.length 0 with
      | some i => String.mk (((cs.take i).reverse.dropWhile isPyWS).reverse)
      | none => s
  | _ => s

/-- Largest number of epoch seconds representable by `datetime`
(9999-12-31 23:59:59); beyond it `utcfromtimestamp` raises the
ValueError that the source catches and turns into None. -/
def maxEpochSeconds : Nat := 253402300799

/-- The preprocessing performed by `_parse_ungm_date` before any parse is
attempted: strip, drop a trailing parenthetical, delete GMT and UTC
markers, strip again. -/
def ungmPreprocess (value : String) : String :=
  pyStrip (String.mk
    (replaceChars "UTC".data []
      (replaceChars "GMT".data [] (stripTrailingParen (pyStrip value)).data)))

/-- First layer of `_parse_ungm_date`: ISO-8601 with Z normalised to a
UTC offset. -/
def ungmIsoStage (text : String) : Option PyDateTime :=
  fromisoformat (String.mk (replaceChars "Z".data "+00:00".data text.data))

/-- Embedding of `app.py::_parse_ungm_date`: ISO-8601 first (after the
trailing-parenthetical strip, GMT/UTC removal and Z normalisation), then
the `/Date(millis)/` wrapper, then the fixed strptime format list. -/
def parse_ungm_date (value : String) : Option PyDateTime :=
  if value = "" then none
  else if pyStrip value = "" then none
  else
    let text := ungmPreprocess value
    match ungmIsoStage text with
    | some dt => some dt
    | none =>
        match findEpochMillis text.data with
        | some ms =>
            if ms / 1000 ≤ maxEpochSeconds then
              some (utcfromtimestampMillis ms)
            else none
        | none => ungmFormatsResult text.data

/-! ### JSON payload model

JSON values as delivered to the adapters.  The array and object spines
are their own inductive types so that all recursion below is structural
and kernel-executable.  Python `str()` of a composite value is
abstracted as a fixed non-empty placeholder; the claims never inspect
such a rendering. -/

mutual
inductive JsonVal where
  | null
  | boolVal (b : Bool)
  | num (n : Int)
  | str (s : String)
  | arr (items : JsonArr)
  | obj (fields : JsonObj)
deriving DecidableEq
inductive JsonArr where
  | nil
  | cons (head : JsonVal) (tail : JsonArr)
deriving DecidableEq
inductive JsonObj where
  | nil
  | cons (key : String) (val : JsonVal) (tail : JsonObj)
deriving DecidableEq
end

mutual
def sizeVal : JsonVal → Nat
  | .arr items => 1 + sizeArr items
  | .obj fields => 1 + sizeObj fields
  | _ => 1
def sizeArr : JsonArr → Nat
  | .nil => 0
  | .cons v t => sizeVal v + sizeArr t
def sizeObj : JsonObj → Nat
  | .nil => 0
  | .cons _ v t => 1 + sizeVal v + sizeObj t
end

def jarr : List JsonVal → JsonArr
  | [] => .nil
  | v :: vs => .cons v (jarr vs)

def jobj : List (String × JsonVal) → JsonObj
  | [] => .nil
  | (k, v) :: ps => .cons k v (jobj ps)

def jaToList : JsonArr → List JsonVal
  | .nil => []
  | .cons v t => v :: jaToList t

/-- Python `dict.get`: the first binding wins (keys are unique in a real
JSON object). -/
def objGet : JsonObj → String → Option JsonVal
  | .nil, _ => none
  | .cons k v t, key => if k = key then some v else objGet t key

def objGetD (fields : JsonObj) (key : String) : JsonVal :=
  (objGet fields key).getD .null

/-- Python decimal rendering of a natural number. -/
def natDigitsAux : Nat → Nat → List Char
  | 0, _ => []
  | fuel + 1, n =>
      if n < 10 then [Char.ofNat (48 + n)]
      else natDigitsAux fuel (n / 10) ++ [Char.ofNat (48 + n % 10)]

def natToStr (n : Nat) : String := String.mk (natDigitsAux (n + 1) n)

def intToStr : Int → String
  | .ofNat m => natToStr m
  | .negSucc m => "-" ++ natToStr (m + 1)

/-- Python truthiness of a JSON value. -/
def jvTruthy : JsonVal → Bool
  | .null => false
  | .boolVal b => b
  | .num n => n ≠ 0
  | .str s => s ≠ ""
  | .arr items => items ≠ .nil
  | .obj fields => fields ≠ .nil

/-- Python `str()` of a JSON value; composite reprs are abstracted as
fixed non-empty placeholders. -/
def jvStr : JsonVal → String
  | .null => "None"
  | .boolVal b => if b then "True" else "False"
  | .num n => intToStr n
  | .str s => s
  | .arr _ => "[composite]"
  | .obj _ => "[composite]"

/-- Python `a or b` on JSON values. -/
def jvOr (a b : JsonVal) : JsonVal := if jvTruthy a then a else b

/-- Python `a or ""` rendered to the string actually stored. -/
def jvOrEmptyStr (v : JsonVal) : String :=
  if jvTruthy v then jvStr v else ""

/-! ### Raw-record extraction (models.py _extract_results and the
UNGM JSON container scan) -/

/-- Walk a fixed priority list of container keys and return the first
list-valued entry, or an empty list when no key matches. -/
def firstListValued (payload : JsonObj) : List String → JsonArr
  | [] => .nil
  | k :: ks =>
      match objGet payload k with
      | some (.arr items) => items
      | _ => firstListValued payload ks

/-- Embedding of `ted_ungm_search/models.py::_extract_results`. -/
def extract_results (payload : JsonObj) : JsonArr :=
  firstListValued payload ["results", "items", "notices", "data"]

/-- The container keys scanned by `app.py::_process_ungm_json` when the
payload is a JSON object. -/
def ungmContainerKeys : List String :=
  ["items", "results", "data", "notices", "Notices", "records", "Records",
   "rows", "Rows"]

def ungm_container (payload : JsonObj) : JsonArr :=
  firstListValued payload ungmContainerKeys

/-! ### app.py _normalise_ungm_value and _extract_ungm_field

The Python normaliser recurses through dictionary lookups, so the
embedding threads explicit fuel; one fuel unit is consumed per nesting
level and `sizeVal` dominates the nesting depth. -/

def ungmValueKeys : List String :=
  ["value", "Value", "Name", "name", "Description", "description",
   "label", "Label", "text", "Text"]

def strNorm (s : String) : Option String :=
  let t := pyStrip s
  if t = "" then none else some t

def firstSomeArr (f : JsonVal → Option String) : JsonArr → Option String
  | .nil => none
  | .cons v t =>
      match f v with
      | some s => some s
      | none => firstSomeArr f t

def firstSomeKeys (f : JsonVal → Option String) (fields : JsonObj) :
    List String → Option String
  | [] => none
  | k :: ks =>
      match objGet fields k with
      | some v =>
          match f v with
          | some s => some s
          | none => firstSomeKeys f fields ks
      | none => firstSomeKeys f fields ks

def normStep (f : JsonVal → Option String) : JsonVal → Option String
  | .null => none
  | .str s => strNorm s
  | .num n => strNorm (intToStr n)
  | .boolVal b => strNorm (if b then "True" else "False")
  | .arr items => firstSomeArr f items
  | .obj fields => firstSomeKeys f fields ungmValueKeys

def normAux : Nat → JsonVal → Option String
  | 0, _ => none
  | fuel + 1, v => normStep (normAux fuel) v

/-- Embedding of `app.py::_normalise_ungm_value`. -/
def normaliseUngmValue (v : JsonVal) : Option String :=
  normAux (sizeVal v + 1) v

/-- The value of the last binding whose lowercased key matches, the
semantics of the `lower_map` comprehension in `_extract_ungm_field`. -/
def objGetLowerLastAux : JsonObj → String → Option JsonVal → Option JsonVal
  | .nil, _, acc => acc
  | .cons key v t, target, acc =>
      objGetLowerLastAux t target (if pyLower key = target then some v else acc)

def objGetLowerLast (fields : JsonObj) (k : String) : Option JsonVal :=
  objGetLowerLastAux fields (pyLower k) none

/-- The value considered for one candidate key: the exact-match entry,
falling back to the case-insensitive map when the key is absent or its
value null. -/
def extractKeyVal (record : JsonObj) (k : String) : Option JsonVal :=
  match objGet record k with
  | none => objGetLowerLast record k
  | some .null => objGetLowerLast record k
  | some v => some v

def extractKeyNorm (record : JsonObj) (k : String) : Option String :=
  match extractKeyVal record k with
  | none => none
  | some x => normaliseUngmValue x

/-- Embedding of `app.py::_extract_ungm_field`: for each candidate key
in order, take the exact-match value (falling back to the
case-insensitive map when absent or null), normalise it, and return the
first hit. -/
def extract_ungm_field (record : JsonObj) : List String → Option String
  | [] => none
  | k :: ks =>
      match extractKeyNorm record k with
      | some t => some t
      | none => extract_ungm_field record ks

/-! ### The canonical Tender record and the persistence gateway -/

/-- The canonical record shape handed to `save_to_db` by every adapter;
`last_updated` is deliberately absent, the gateway alone stamps it. -/
structure TenderData where
  site : String
  reference_no : String
  title : String
  description : String
  published_date : Option PyDateTime
  deadline_date : Option PyDateTime
  organization : String
  notice_type : String
  country : String
  detail_url : Option String
deriving DecidableEq

structure TenderRow where
  data : TenderData
  last_updated : Nat
deriving DecidableEq

def keyMatches (site ref : String) (r : TenderRow) : Bool :=
  r.data.site = site && r.data.reference_no = ref

/-- Embedding of `TenderCrawler.save_to_db`: the sqlite upsert keyed on
(site, reference_no).  On conflict every non-key column, `last_updated`
included, is set to the new values; otherwise a fresh row is inserted.
The wall clock is passed explicitly. -/
def save_to_db (db : List TenderRow) (t : TenderData) (now : Nat) : List TenderRow :=
  if db.any (keyMatches t.site t.reference_no) then
    db.map (fun r => if keyMatches t.site t.reference_no r then ⟨t, now⟩ else r)
  else db ++ [⟨t, now⟩]

/-! ### UNGM record pipeline (app.py _process_ungm_json) -/

def ungmTitleKeys : List String :=
  ["title", "noticeTitle", "notice_title", "Name", "TenderTitle"]

def ungmRefKeys : List String :=
  ["reference", "referenceNumber", "reference_number", "noticeReference",
   "noticeNumber", "refNo", "referenceNo"]

def ungmDescKeys : List String := ["description", "summary", "shortDescription"]

def ungmPubKeys : List String :=
  ["published", "publishedDate", "datePublished", "publicationDate"]

def ungmDeadKeys : List String :=
  ["deadline", "deadlineDate", "submissionDeadline", "dateDeadline"]

def ungmAgencyKeys : List String :=
  ["agency", "agencyName", "organisation", "organization", "buyer"]

def ungmTypeKeys : List String := ["noticeType", "noticeTypeName", "type"]

def ungmCountryKeys : List String := ["country", "countryName", "location"]

def ungmUrlKeys : List String := ["detailUrl", "noticeUrl", "url", "detailLink"]

/-- One raw UNGM JSON record through the normaliser: `none` when the
record is dropped (non-dict, missing title, keyword mismatch or missing
reference), otherwise the record handed to `save_to_db`. -/
def processUngmRecord (keywords : List String) (record : JsonVal) :
    Option TenderData :=
  match record with
  | .obj fields =>
      match extract_ungm_field fields ungmTitleKeys with
      | none => none
      | some title =>
          if !keywords.isEmpty &&
              !(keywords.any (fun kw => containsSub (pyLower title) kw)) then
            none
          else
            match extract_ungm_field fields ungmRefKeys with
            | none => none
            | some referenceNo =>
                let description :=
                  (extract_ungm_field fields ungmDescKeys).getD ""
                let publishedRaw := extract_ungm_field fields ungmPubKeys
                let deadlineRaw := extract_ungm_field fields ungmDeadKeys
                let agency := (extract_ungm_field fields ungmAgencyKeys).getD ""
                let noticeType := (extract_ungm_field fields ungmTypeKeys).getD ""
                let country := (extract_ungm_field fields ungmCountryKeys).getD ""
                let detailUrl :=
                  match extract_ungm_field fields ungmUrlKeys with
                  | some u =>
                      if startsWithChars u.data ['/'] then
                        some ("https://www.ungm.org" ++ u)
                      else some u
                  | none => none
                some
                  { site := "UNGM"
                    reference_no := referenceNo
                    title := title
                    description := description
                    published_date := publishedRaw.bind parse_ungm_date
                    deadline_date := deadlineRaw.bind parse_ungm_date
                    organization := agency
                    notice_type := noticeType
                    country := country
                    detail_url := detailUrl }
  | _ => none

/-- The sequence of records `_process_ungm_json` passes to `save_to_db`
for a given payload. -/
def process_ungm_json_saves (payload : JsonVal) (keywords : List String) :
    List TenderData :=
  let records : List JsonVal :=
    match payload with
    | .obj fields => jaToList (ungm_container fields)
    | .arr items => jaToList items
    | _ => []
  records.filterMap (processUngmRecord keywords)

/-! ### SAM record pipeline (app.py crawl_sam notice loop) -/

def asObj : JsonVal → JsonObj
  | .obj fields => fields
  | _ => .nil

/-- Python `(x or a_dict_literal).get`: falsy values become the empty
dict. -/
def pyOrDict (v : JsonVal) : JsonObj :=
  if jvTruthy v then asObj v else .nil

/-- Offset repair in `_parse_iso_datetime`: a trailing 4-digit UTC
offset without a colon gets one inserted. -/
def fixCompactOffset (s : String) : String :=
  let cs := s.data
  let n := cs.length
  if n ≥ 5 then
    let tail4 := cs.drop (n - 4)
    let signChar := cs.getD (n - 5) ' '
    if (signChar = '+' || signChar = '-') && tail4.all Char.isDigit &&
        (cs.take (n - 5)).all (fun c => c ≠ '\n') then
      String.mk (cs.take (n - 2) ++ [':'] ++ cs.drop (n - 2))
    else s
  else s

/-- Strptime with pattern %Y-%m-%dT%H:%M:%S. -/
def fmtYMDTClock (cs : List Char) : Option PyDateTime :=
  match parseYearField cs with
  | none => none
  | some (y, r1) =>
    match expectChar '-' r1 with
    | none => none
    | some r2 =>
      match parseMonthField r2 with
      | none => none
      | some (m, r3) =>
        match expectChar '-' r3 with
        | none => none
        | some r4 =>
          match parseDayField r4 with
          | none => none
          | some (d, r5) =>
            match expectChar 'T' r5 with
            | none => none
            | some r6 =>
              match parseClock r6 true with
              | none => none
              | some (h, mi, s) => mkNaive y m d h mi s

/-- Embedding of `app.py::_parse_iso_datetime`. -/
def parse_iso_datetime (value : JsonVal) : Option PyDateTime :=
  if !jvTruthy value then none
  else
    let text := pyStrip (jvStr value)
    if text = "" then none
    else
      let text :=
        fixCompactOffset (String.mk (replaceChars "Z".data "+00:00".data text.data))
      match fromisoformat text with
      | some dt => some dt
      | none => fmtYMDTClock (text.data.take 19)

/-- One raw SAM notice through the crawl loop body: `none` when dropped
(non-dict or falsy reference), otherwise the record handed to
`save_to_db`. -/
def processSamNotice (notice : JsonVal) : Option TenderData :=
  match notice with
  | .obj n =>
      let refV := jvOr (jvOr (objGetD n "solicitationNumber")
        (objGetD n "noticeId")) (objGetD n "id")
      if !jvTruthy refV then none
      else
        let titleV := jvOr (objGetD n "title") (objGetD n "subject")
        let description := jvOrEmptyStr (jvOr (jvOr (objGetD n "description")
          (objGetD n "descriptionText")) (objGetD n "summary"))
        let publishedDate := parse_iso_datetime
          (jvOr (objGetD n "postedDate") (objGetD n "publishDate"))
        let deadlineDate := parse_iso_datetime (jvOr (jvOr
          (objGetD n "responseDate") (objGetD n "closeDate"))
          (objGetD n "dueDate"))
        let organization := jvOrEmptyStr (jvOr (jvOr
          (objGetD n "organizationName")
          (objGetD (pyOrDict (objGetD n "organizationHierarchy"))
            "organizationName"))
          (objGetD (pyOrDict (objGetD n "office")) "name"))
        let noticeType := jvOrEmptyStr
          (jvOr (objGetD n "type") (objGetD n "noticeType"))
        let placeV := objGetD n "placeOfPerformance"
        let country :=
          match (if jvTruthy placeV then placeV else .obj .nil) with
          | .obj p => jvOrEmptyStr (jvOr (objGetD p "country")
              (objGetD (pyOrDict (objGetD p "address")) "country"))
          | _ => ""
        let linkV := jvOr (objGetD n "uiLink") (objGetD n "link")
        some
          { site := "SAM"
            reference_no := jvStr refV
            title := if jvTruthy titleV then jvStr titleV else "(No title)"
            description := description
            published_date := publishedDate
            deadline_date := deadlineDate
            organization := organization
            notice_type := noticeType
            country := country
            detail_url := match linkV with
              | .null => none
              | v => some (jvStr v) }
  | _ => none

/-- The records one SAM result page passes to `save_to_db`. -/
def sam_save_calls (notices : List JsonVal) : List TenderData :=
  notices.filterMap processSamNotice

/-! ### TED record pipeline (app.py crawl_ted notice loop) -/

def tedParseDate (raw : String) : Option PyDateTime :=
  if raw = "" then none
  else fromisoformat (String.mk (replaceChars "Z".data "+00:00".data raw.data))

/-- One raw TED notice through the crawl loop body.  Note there is no
drop: every notice, reference or not, becomes a `save_to_db` call. -/
def processTedNotice (n : JsonObj) : TenderData :=
  let referenceNo := jvOrEmptyStr
    (jvOr (objGetD n "publicationNumber") (objGetD n "publication-number"))
  let title := match objGet n "title" with | some v => jvStr v | none => ""
  let description := jvOrEmptyStr
    (jvOr (objGetD n "description") (objGetD n "shortDescription"))
  let pubRaw := jvOrEmptyStr
    (jvOr (objGetD n "publicationDate") (objGetD n "publication-date"))
  let deadRaw := jvOrEmptyStr
    (jvOr (objGetD n "deadlineDate") (objGetD n "deadline-date"))
  let buyerCountry := jvOrEmptyStr (jvOr (jvOr (jvOr (jvOr
    (objGetD n "buyerCountry") (objGetD n "buyer-country"))
    (objGetD n "place-of-performance.country"))
    (objGetD n "place-of-performance-country"))
    (objGetD n "placeOfPerformanceCountry"))
  let buyerName := jvOrEmptyStr
    (jvOr (objGetD n "buyerName") (objGetD n "buyer-name"))
  let noticeType := jvOrEmptyStr
    (jvOr (objGetD n "noticeType") (objGetD n "notice-type"))
  { site := "TED"
    reference_no := referenceNo
    title := title
    description := description
    published_date := tedParseDate pubRaw
    deadline_date := tedParseDate deadRaw
    organization := buyerName
    notice_type := noticeType
    country := buyerCountry
    detail_url :=
      if referenceNo ≠ "" then
        some ("https://ted.europa.eu/udl?uri=TED:NOTICE:" ++ referenceNo)
      else none }

/-- The records the TED crawl loop passes to `save_to_db`. -/
def ted_save_calls (notices : List JsonObj) : List TenderData :=
  notices.map processTedNotice

/-! ### API-key masking and the SAM error log (app.py _mask_api_key,
crawl_sam) -/

/-- Case-insensitive match of a lowercase pattern against the head of
the text, returning the matched original characters and the rest. -/
def matchCIAux : List Char → List Char → Option (List Char × List Char)
  | [], rest => some ([], rest)
  | _ :: _, [] => none
  | p :: ps, c :: cs =>
      if c.toLower = p then
        (matchCIAux ps cs).map (fun pr => (c :: pr.1, pr.2))
      else none

/-- Scan for case-insensitive `api_key=` followed by a nonempty run of
characters other than the ampersand separator, replacing the run with
three asterisks; the semantics of the source regex substitution. -/
def maskCharsAux : Nat → List Char → List Char
  | 0, cs => cs
  | _ + 1, [] => []
  | fuel + 1, c :: cs =>
      match matchCIAux "api_key=".data (c :: cs) with
      | some (matched, rest) =>
          match rest with
          | [] => c :: maskCharsAux fuel cs
          | r :: _ =>
              if r = '&' then c :: maskCharsAux fuel cs
              else matched ++ ('*' :: '*' :: '*' :: []) ++
                maskCharsAux fuel (rest.dropWhile (fun x => x ≠ '&'))
      | none => c :: maskCharsAux fuel cs

/-- Embedding of `app.py::_mask_api_key`. -/
def mask_api_key (s : String) : String :=
  String.mk (maskCharsAux s.data.length s.data)

def samDetailText : Option String → String
  | some d => if d ≠ "" then " - " ++ d else ""
  | none => ""

/-- The message recorded by the `requests.HTTPError` branch of
`crawl_sam`: the masked exception text followed by the raw response-body
detail (absent when the error carries no response). -/
def sam_http_error_log (excText : String) (detailPayload : Option String) : String :=
  "SAM.gov crawling failed: " ++ mask_api_key excText ++ samDetailText detailPayload

/-! ### TED iteration-token transport and iteration
(ted_client.py _request_with_iteration_token, iterate_all) -/

structure TedHTTPErrorData where
  status_code : Nat
  message : String
deriving DecidableEq

inductive TedExc where
  | http (e : TedHTTPErrorData)
  | clientErr
  | decodeErr
  | requestErr
deriving DecidableEq

def token_param_names : List String :=
  ["page-token", "next-page-token", "iteration-token", "page"]

def isClientErrorStatus (e : TedHTTPErrorData) : Bool :=
  e.status_code == 400 || e.status_code == 422

/-- The retry loop of `_request_with_iteration_token`; `perform` is the
oracle mapping the parameter name carrying the token to the outcome of
`_perform_request` with that parameter set. -/
def requestTokenLoop {α : Type} (perform : String → Except TedExc α) :
    List String → Option TedHTTPErrorData → Except TedExc α
  | [], some e => .error (.http e)
  | [], none => .error .clientErr
  | p :: ps, _lastErr =>
      match perform p with
      | .ok payload => .ok payload
      | .error (.http e) =>
          if isClientErrorStatus e && p != "page" then
            requestTokenLoop perform ps (some e)
          else .error (.http e)
      | .error ex => .error ex

/-- Embedding of `ted_client.py::_request_with_iteration_token`. -/
def request_with_iteration_token {α : Type} (performBase : Except TedExc α)
    (perform : String → Except TedExc α) (hasToken : Bool) : Except TedExc α :=
  if !hasToken then performBase
  else requestTokenLoop perform token_param_names none

/-- An oracle delivering one fixed outcome per candidate parameter
name. -/
def oracleOfFour {α : Type} (r1 r2 r3 r4 : Except TedExc α) :
    String → Except TedExc α :=
  fun p =>
    if p = "page-token" then r1
    else if p = "next-page-token" then r2
    else if p = "iteration-token" then r3
    else if p = "page" then r4
    else .error .clientErr

/-- The observable cascade of the transport: each client-error (400 or
422) on a token-name attempt moves on to the next candidate; the final
page attempt, and any non-client error, is surfaced as is. -/
def tokenCascade {α : Type} (r1 r2 r3 r4 : Except TedExc α) : Except TedExc α :=
  match r1 with
  | .ok v => .ok v
  | .error e1 =>
    match e1 with
    | .http h1 =>
      if isClientErrorStatus h1 then
        match r2 with
        | .ok v => .ok v
        | .error e2 =>
          match e2 with
          | .http h2 =>
            if isClientErrorStatus h2 then
              match r3 with
              | .ok v => .ok v
              | .error e3 =>
                match e3 with
                | .http h3 =>
                  if isClientErrorStatus h3 then r4 else .error (.http h3)
                | ex => .error ex
            else .error (.http h2)
          | ex => .error ex
      else .error (.http h1)
    | ex => .error ex

/-- One response of a stubbed continuation-token source. -/
structure StubPage where
  notices : List String
  next_page_token : Option String
deriving DecidableEq

/-- Embedding of the `iterate_all` loop run against a finite script of
stub responses: each loop iteration consumes the next response, yields
its notices, and stops when the response carries no continuation token.
The result is the yielded sequence and the number of requests issued. -/
def iterate_all_trace : List StubPage → List String × Nat
  | [] => ([], 0)
  | page :: rest =>
      match page.next_page_token with
      | none => (page.notices, 1)
      | some _ =>
          let r := iterate_all_trace rest
          (page.notices ++ r.1, r.2 + 1)

/-! ### TED configuration parsing (app.py _parse_ted_config and the
query selection in crawl_ted) -/

structure TedBuilder where
  date_from : String
  date_to : String
  countries : List String
  cpv_prefixes : List String
  keywords : List String
  form_types : List String
deriving DecidableEq

def default_ted_builder (todayFrom todayTo : String) : TedBuilder :=
  { date_from := todayFrom
    date_to := todayTo
    countries := ["DE", "FR"]
    cpv_prefixes := ["33*"]
    keywords := ["PCR", "reagent", "diagnostic"]
    form_types := ["F15"] }

/-- Embedding of `app.py::_ensure_list` on a list value: strip every
item and drop the empties. -/
def ensure_list (values : List String) : List String :=
  values.filterMap (fun s =>
    let t := pyStrip s
    if t = "" then none else some t)

/-- Embedding of `app.py::_build_query_from_builder`. -/
def build_query_from_builder (b : TedBuilder) : String :=
  build_query b.date_from b.date_to
    ((ensure_list b.countries).map pyUpper)
    (ensure_list b.cpv_prefixes)
    (ensure_list b.keywords)
    ((ensure_list b.form_types).map pyUpper)

def default_ted_query (todayFrom todayTo : String) : String :=
  build_query_from_builder (default_ted_builder todayFrom todayTo)

def TED_DEFAULT_FIELDS : List String :=
  ["publication-number", "title", "buyer-name", "publication-date",
   "classification-cpv", "place-of-performance.country"]

def DEFAULT_TED_FIELDS : List String :=
  ["description", "deadline-date", "buyer-country", "notice-type",
   "form-type"].foldl
    (fun acc f => if acc.contains f then acc else acc ++ [f])
    TED_DEFAULT_FIELDS

structure TedSettings where
  query : String
  fields : List String
  limit : Int
  sort_field : String
  sort_order : String
  mode : String
  page : Int
deriving DecidableEq

/-- The builder sub-object of a parsed TED configuration: `none` marks
an absent key (a present key whose value is garbage collapses to the
empty cleaned list, exactly as `_ensure_list` does). -/
structure TedBuilderOverrides where
  date_from : Option String := none
  date_to : Option String := none
  countries : Option (List String) := none
  cpv_prefixes : Option (List String) := none
  keywords : Option (List String) := none
  form_types : Option (List String) := none
deriving DecidableEq

/-- Embedding of `app.py::_merge_ted_builder`. -/
def merge_ted_builder (base : TedBuilder) (o : TedBuilderOverrides) : TedBuilder :=
  let b1 := match o.date_from with
    | some s => if pyStrip s ≠ "" then { base with date_from := pyStrip s } else base
    | none => base
  let b2 := match o.date_to with
    | some s => if pyStrip s ≠ "" then { b1 with date_to := pyStrip s } else b1
    | none => b1
  let b3 := match o.countries with
    | some vs => { b2 with countries := (ensure_list vs).map pyUpper }
    | none => b2
  let b4 := match o.cpv_prefixes with
    | some vs => { b3 with cpv_prefixes := ensure_list vs }
    | none => b3
  let b5 := match o.keywords with
    | some vs => { b4 with keywords := ensure_list vs }
    | none => b4
  match o.form_types with
  | some vs => { b5 with form_types := (ensure_list vs).map pyUpper }
  | none => b5

/-- A parsed TED configuration dict; `none` fields stand for keys that
are absent or carry a value of the wrong type. -/
structure TedConfigDict where
  query : Option String := none
  fields : Option (List String) := none
  limit : Option Int := none
  sort_field : Option String := none
  sortBy : Option String := none
  sort_order : Option String := none
  order : Option String := none
  mode : Option String := none
  page : Option Int := none
  builder : Option TedBuilderOverrides := none
deriving DecidableEq

/-- The branch taken by `_parse_ted_config` on its raw text input:
absent or empty text, text that is not JSON, JSON that is not an object,
or a JSON object. -/
inductive TedConfigInput where
  | missing
  | nonJsonText (raw : String)
  | jsonNonDict (raw : String)
  | jsonDict (d : TedConfigDict)
deriving DecidableEq

/-- Python `a or b` over optional strings. -/
def orStrOpt (a b : Option String) : Option String :=
  match a with
  | some s => if s ≠ "" then some s else b
  | none => b

def tedApplyQuery (d : TedConfigDict) (s : TedSettings) : TedSettings :=
  match d.query with
  | some q => if pyStrip q ≠ "" then { s with query := q } else s
  | none => s

def tedApplyFields (d : TedConfigDict) (s : TedSettings) : TedSettings :=
  match d.fields with
  | some fs =>
      let cleaned := ensure_list fs
      if cleaned ≠ [] then { s with fields := cleaned } else s
  | none => s

def tedApplyLimit (d : TedConfigDict) (s : TedSettings) : TedSettings :=
  match d.limit with
  | some v => if v > 0 then { s with limit := v } else s
  | none => s

def tedApplySortField (d : TedConfigDict) (s : TedSettings) : TedSettings :=
  match orStrOpt d.sort_field d.sortBy with
  | some v => if pyStrip v ≠ "" then { s with sort_field := pyStrip v } else s
  | none => s

def tedApplySortOrder (d : TedConfigDict) (s : TedSettings) : TedSettings :=
  match orStrOpt d.sort_order d.order with
  | some v =>
      if pyStrip v ≠ "" then { s with sort_order := pyUpper (pyStrip v) }
      else s
  | none => s

def tedApplyMode (d : TedConfigDict) (s : TedSettings) : TedSettings :=
  match d.mode with
  | some v => if pyStrip v ≠ "" then { s with mode := pyStrip v } else s
  | none => s

def tedApplyPage (d : TedConfigDict) (s : TedSettings) : TedSettings :=
  match d.page with
  | some v => if v > 0 then { s with page := v } else s
  | none => s

/-- Embedding of `app.py::_parse_ted_config`; the two wall-clock-derived
default dates are passed explicitly.  The per-key setting updates run in
source order; the final step falls back to a builder-derived query only
when the accumulated query is empty. -/
def parse_ted_config (todayFrom todayTo : String) (input : TedConfigInput) :
    TedSettings × TedBuilder :=
  let defaultBuilder := default_ted_builder todayFrom todayTo
  let settings0 : TedSettings :=
    { query := default_ted_query todayFrom todayTo
      fields := DEFAULT_TED_FIELDS
      limit := 100
      sort_field := "publication-date"
      sort_order := "DESC"
      mode := "page"
      page := 1 }
  match input with
  | .missing => (settings0, defaultBuilder)
  | .nonJsonText raw => ({ settings0 with query := raw }, defaultBuilder)
  | .jsonNonDict raw => ({ settings0 with query := raw }, defaultBuilder)
  | .jsonDict d =>
      let s7 := tedApplyPage d (tedApplyMode d (tedApplySortOrder d
        (tedApplySortField d (tedApplyLimit d (tedApplyFields d
          (tedApplyQuery d settings0))))))
      let builder := match d.builder with
        | some o => merge_ted_builder defaultBuilder o
        | none => defaultBuilder
      let s8 :=
        if s7.query = "" then { s7 with query := build_query_from_builder builder }
        else s7
      (s8, builder)

/-- The query string `crawl_ted` hands to the search client:
`ted_settings.get("query") or _default_ted_query()`. -/
def crawl_ted_search_query (settings : TedSettings) (todayFrom todayTo : String) :
    String :=
  if settings.query ≠ "" then settings.query
  else default_ted_query todayFrom todayTo

/-! ### Crawl orchestration (app.py crawl_ted error handling and
crawl_all) -/

/-- Embedding of `TenderCrawler._should_retry_ted_without_fields`;
`message` is the text selected from the error payload (or the error
itself). -/
def should_retry_ted_without_fields (e : TedHTTPErrorData) : Bool :=
  e.status_code == 400 && containsSub (pyLower e.message) "unsupported" &&
    containsSub (pyLower e.message) "field"

/-- Embedding of the `crawl_ted` control flow around the initial search:
the first outcome is `_execute_ted_search(field_tokens)`, the second is
the `_execute_ted_search([])` fallback issued when the first fails with
a 400 unsupported-field projection error.  Any other exception, and any
exception of the fallback itself, escapes `crawl_ted`; a successful
search feeds the per-notice save loop, whose per-record failures are
caught inside it. -/
def crawl_ted_model (first retryOutcome : Except TedExc (List JsonObj)) :
    Except TedExc Nat :=
  match first with
  | .ok notices => .ok (ted_save_calls notices).length
  | .error (.http e) =>
      if should_retry_ted_without_fields e then
        match retryOutcome with
        | .ok notices => .ok (ted_save_calls notices).length
        | .error ex => .error ex
      else .error (.http e)
  | .error ex => .error ex

/-- Embedding of `crawl_ungm`: the token bootstrap and the search POST
are guarded by handlers that log and return 0; a decoded JSON payload
feeds `_process_ungm_json`.  The modelled failure modes are the request
exceptions those handlers catch. -/
def crawl_ungm_model (bootstrap : Except String Unit)
    (search : Except String (Option JsonVal)) (keywords : List String) : Nat :=
  match bootstrap with
  | .error _ => 0
  | .ok _ =>
      match search with
      | .error _ => 0
      | .ok none => 0
      | .ok (some payload) => (process_ungm_json_saves payload keywords).length

/-- Embedding of `crawl_sam`: a missing API key is a soft skip; a failed
or undecodable page request returns the running total (zero for the
first page); a successful page feeds the notice loop. -/
def crawl_sam_model (apiKey : Option String)
    (pageOutcome : Except String (List JsonVal)) : Nat :=
  match apiKey with
  | none => 0
  | some _ =>
      match pageOutcome with
      | .error _ => 0
      | .ok notices => (sam_save_calls notices).length

structure CrawlOutcome where
  ungm : Nat
  sam : Nat
  ted : Nat
  duration : Nat
deriving DecidableEq

/-- Embedding of `app.py::crawl_all`: the three crawls run in sequence
with no exception handler of its own, so an exception escaping
`crawl_ted` escapes `crawl_all`. -/
def crawl_all_model (ungmBootstrap : Except String Unit)
    (ungmSearch : Except String (Option JsonVal)) (ungmKeywords : List String)
    (samKey : Option String) (samPage : Except String (List JsonVal))
    (tedFirst tedRetry : Except TedExc (List JsonObj))
    (startTime endTime : Nat) : Except TedExc CrawlOutcome :=
  let u := crawl_ungm_model ungmBootstrap ungmSearch ungmKeywords
  let s := crawl_sam_model samKey samPage
  match crawl_ted_model tedFirst tedRetry with
  | .error e => .error e
  | .ok t => .ok ⟨u, s, t, endTime - startTime⟩

def sampleTender : TenderData :=
  { site := "UNGM", reference_no := "REF-001", title := "PCR Diagnostic Kits",
    description := "", published_date := none, deadline_date := none,
    organization := "UNICEF", notice_type := "RFP", country := "Global",
    detail_url := some "https://www.ungm.org/Notice/12345" }

/-- The uniqueness constraint the sqlite schema enforces on the tenders
table: at most one row per (site, reference_no). -/
def uniqueKeys (db : List TenderRow) : Prop :=
  ∀ site ref, (db.filter (keyMatches site ref)).length ≤ 1

instance exceptDecEq {ε α : Type} [DecidableEq ε] [DecidableEq α] :
    DecidableEq (Except ε α) := fun a b =>
  match a, b with
  | .ok x, .ok y =>
      if h : x = y then isTrue (by rw [h])
      else isFalse (fun hc => h (Except.ok.inj hc))
  | .error x, .error y =>
      if h : x = y then isTrue (by rw [h])
      else isFalse (fun hc => h (Except.error.inj hc))
  | .ok _, .error _ => isFalse (fun hc => Except.noConfusion hc)
  | .error _, .ok _ => isFalse (fun hc => Except.noConfusion hc)

def c7Oracle : String → Except TedExc Unit :=
  fun p => .error (.http ⟨400, p⟩)

def asArrOpt : Option JsonVal → Option JsonArr
  | some (.arr items) => some items
  | _ => none

set_option maxRecDepth 20000

lemma ungmPreprocess_of_strip_empty {s : String} (h : pyStrip s = "") :
    ungmPreprocess s = "" := by
  unfold ungmPreprocess
  rw [h]
  rfl

lemma parse_ungm_date_eq (s : String) (hs : s ≠ "") (hstrip : pyStrip s ≠ "") :
    parse_ungm_date s =
      match ungmIsoStage (ungmPreprocess s) with
      | some dt => some dt
      | none =>
        match findEpochMillis (ungmPreprocess s).data with
        | some ms =>
            if ms / 1000 ≤ maxEpochSeconds then
              some (utcfromtimestampMillis ms)
            else none
        | none => ungmFormatsResult (ungmPreprocess s).data := by
  unfold parse_ungm_date
  simp only [if_neg hs, if_neg hstrip]

/-- C5: `_parse_ungm_date` tries ISO-8601 (with Z normalised to a UTC
offset), then the legacy `/Date(millis)/` epoch wrapper, then the fixed
strptime pattern list, the first success winning; the three strings of
the specification parse to the same UTC instant 2024-01-01 00:00:00 UTC;
an input matching none of the formats yields `none` (the embedding is a
total function, so no exception is possible). -/
theorem C5_parse_ungm_date_layers :
    (∀ s dt, ungmIsoStage (ungmPreprocess s) = some dt →
        parse_ungm_date s = some dt) ∧
    (∀ s ms, ungmIsoStage (ungmPreprocess s) = none →
        findEpochMillis (ungmPreprocess s).data = some ms →
        ms / 1000 ≤ maxEpochSeconds →
        parse_ungm_date s = some (utcfromtimestampMillis ms)) ∧
    (∀ s, ungmIsoStage (ungmPreprocess s) = none →
        findEpochMillis (ungmPreprocess s).data = none →
        parse_ungm_date s = ungmFormatsResult (ungmPreprocess s).data) ∧
    parse_ungm_date "2024-01-01T00:00:00Z" =
      some ⟨2024, 1, 1, 0, 0, 0, 0, some 0⟩ ∧
    parse_ungm_date "01-Jan-2024" = some ⟨2024, 1, 1, 0, 0, 0, 0, none⟩ ∧
    parse_ungm_date "/Date(1704067200000)/" =
      some ⟨2024, 1, 1, 0, 0, 0, 0, none⟩ ∧
    utcInstantMicros ⟨2024, 1, 1, 0, 0, 0, 0, some 0⟩ = 1704067200000000 ∧
    utcInstantMicros ⟨2024, 1, 1, 0, 0, 0, 0, none⟩ = 1704067200000000 ∧
    parse_ungm_date "hello" = none ∧
    parse_ungm_date "32-Jan-2024 nonsense" = none ∧
    parse_ungm_date "" = none := by
  have hempty : ∀ s : String, pyStrip s = "" → parse_ungm_date s = none := by
    intro s h
    unfold parse_ungm_date
    by_cases hs : s = ""
    · rw [if_pos hs]
    · rw [if_neg hs, if_pos h]
  have hiso : ∀ s dt, ungmIsoStage (ungmPreprocess s) = some dt →
      parse_ungm_date s = some dt := by
    intro s dt h
    by_cases hstrip : pyStrip s = ""
    · rw [ungmPreprocess_of_strip_empty hstrip,
        show ungmIsoStage "" = none from rfl] at h
      exact Option.noConfusion h
    · have hs : s ≠ "" := fun hc => hstrip (by rw [hc]; rfl)
      rw [parse_ungm_date_eq s hs hstrip, h]
  refine ⟨hiso, ?_, ?_, by decide, by decide, by decide, by decide, by decide,
    by decide, by decide, by decide⟩
  · intro s ms hno hms hrange
    by_cases hstrip : pyStrip s = ""
    · rw [ungmPreprocess_of_strip_empty hstrip,
        show findEpochMillis "".data = none from rfl] at hms
      exact Option.noConfusion hms
    · have hs : s ≠ "" := fun hc => hstrip (by rw [hc]; rfl)
      rw [parse_ungm_date_eq s hs hstrip, hno, hms]
      dsimp only
      rw [if_pos hrange]
  · intro s hno hnoep
    by_cases hstrip : pyStrip s = ""
    · rw [hempty s hstrip, ungmPreprocess_of_strip_empty hstrip]
      decide
    · have hs : s ≠ "" := fun hc => hstrip (by rw [hc]; rfl)
      rw [parse_ungm_date_eq s hs hstrip, hno, hnoep]

/-- Witness for C5: each layered implication applied at a concrete
input. -/
theorem C5_parse_ungm_date_layers_witness :
    parse_ungm_date "2024-01-01T00:00:00Z" =
      some ⟨2024, 1, 1, 0, 0, 0, 0, some 0⟩ ∧
    parse_ungm_date "/Date(1704067200000)/" =
      some (utcfromtimestampMillis 1704067200000) ∧
    parse_ungm_date "01-Jan-2024" =
      ungmFormatsResult (ungmPreprocess "01-Jan-2024").data :=
  ⟨C5_parse_ungm_date_layers.1 "2024-01-01T00:00:00Z" _ (by decide),
   C5_parse_ungm_date_layers.2.1 "/Date(1704067200000)/" 1704067200000
     (by decide) (by decide) (by decide),
   C5_parse_ungm_date_layers.2.2.1 "01-Jan-2024" (by decide) (by decide)⟩

/-- C2: for every combination of inputs `build_query` joins its clauses
with " AND " in the fixed order date, country, CPV category, keyword,
form-type; an omitted or empty optional group contributes no clause and
no stray AND or parentheses; and on the two inputs singled out by the
specification the output is exactly the quoted strings. -/
theorem C2_build_query_shape :
    (∀ df dt cs cp kw ft,
        build_query df dt cs cp kw ft =
          String.intercalate " AND "
            ([dateClause df dt] ++ countryGroup cs ++ cpvGroup cp ++
              keywordGroup kw ++ formTypeGroup ft)) ∧
    countryGroup [] = [] ∧ cpvGroup [] = [] ∧
    keywordGroup [] = [] ∧ formTypeGroup [] = [] ∧
    (∀ df dt, build_query df dt [] [] [] [] = dateClause df dt) ∧
    build_query "2025-06-18" "2025-09-16" ["DE", "FR"] ["33*"]
        ["PCR", "reagent", "diagnostic"] ["F15"] =
      "publication-date:[2025-06-18 TO 2025-09-16] AND ((place-of-performance.country:DE OR buyer-country:DE) OR (place-of-performance.country:FR OR buyer-country:FR)) AND (classification-cpv:33*) AND title:(PCR OR reagent OR diagnostic) AND form-type:(F15)" ∧
    build_query "2025-06-18" "2025-09-16" [] [] [] [] =
      "publication-date:[2025-06-18 TO 2025-09-16]" := by
  refine ⟨?_, rfl, rfl, rfl, rfl, fun df dt => rfl, by decide, by decide⟩
  intro df dt cs cp kw ft
  simp [build_query, countryGroup, cpvGroup, keywordGroup, formTypeGroup,
    List.append_assoc]

/-! ### Theorems about the persistence gateway (claim C1) -/

lemma filter_replace_nil (s ref : String) (x : TenderRow) (db : List TenderRow)
    (h : db.filter (keyMatches s ref) = []) :
    (db.map (fun r => if keyMatches s ref r then x else r)).filter
      (keyMatches s ref) = [] := by
  induction db with
  | nil => rfl
  | cons r rest ih =>
      rw [List.filter_cons] at h
      by_cases hm : keyMatches s ref r
      · simp [hm] at h
      · rw [if_neg hm] at h
        simp only [List.map_cons, if_neg hm, List.filter_cons]
        exact ih h

lemma filter_replace_single (s ref : String) (x : TenderRow)
    (hx : keyMatches s ref x = true) (db : List TenderRow)
    (hcount : (db.filter (keyMatches s ref)).length ≤ 1)
    (hany : db.any (keyMatches s ref) = true) :
    (db.map (fun r => if keyMatches s ref r then x else r)).filter
      (keyMatches s ref) = [x] := by
  induction db with
  | nil => simp at hany
  | cons r rest ih =>
      by_cases hm : keyMatches s ref r
      · have hrest : rest.filter (keyMatches s ref) = [] := by
          rw [List.filter_cons, if_pos hm] at hcount
          have h0 : (rest.filter (keyMatches s ref)).length = 0 := by
            simp only [List.length_cons] at hcount
            omega
          exact List.eq_nil_of_length_eq_zero h0
        simp only [List.map_cons, if_pos hm, List.filter_cons, hx, if_true]
        rw [filter_replace_nil s ref x rest hrest]
      · rw [List.any_cons] at hany
        have hany2 : rest.any (keyMatches s ref) = true := by
          cases hpr : keyMatches s ref r
          · simpa [hpr] using hany
          · exact absurd hpr (by simpa using hm)
        rw [List.filter_cons, if_neg hm] at hcount
        simp only [List.map_cons, if_neg hm, List.filter_cons]
        exact ih hcount hany2

lemma filter_replace_indep (s ref sT rT : String) (x : TenderRow)
    (hx : keyMatches s ref x = false)
    (hdisj : ∀ row, keyMatches sT rT row = true → keyMatches s ref row = false)
    (db : List TenderRow) :
    (db.map (fun row => if keyMatches sT rT row then x else row)).filter
      (keyMatches s ref) = db.filter (keyMatches s ref) := by
  induction db with
  | nil => rfl
  | cons row rest ih =>
      simp only [List.map_cons, List.filter_cons]
      by_cases hm : keyMatches sT rT row
      · rw [if_pos hm]
        simp [hx, hdisj row hm, ih]
      · rw [if_neg hm]
        simp [ih]

lemma save_to_db_filter_key (db : List TenderRow) (t : TenderData) (now : Nat)
    (hu : uniqueKeys db) :
    (save_to_db db t now).filter (keyMatches t.site t.reference_no) =
      [⟨t, now⟩] := by
  unfold save_to_db
  by_cases hany : db.any (keyMatches t.site t.reference_no)
  · rw [if_pos hany]
    exact filter_replace_single _ _ ⟨t, now⟩ (by simp [keyMatches]) db
      (hu _ _) hany
  · rw [if_neg hany]
    rw [List.filter_append]
    have h0 : ∀ r ∈ db, ¬ (keyMatches t.site t.reference_no r = true) := by
      intro r hr hc
      exact hany (List.any_eq_true.mpr ⟨r, hr, hc⟩)
    rw [List.filter_eq_nil_iff.mpr h0]
    simp [keyMatches]

lemma save_to_db_filter_other (db : List TenderRow) (t : TenderData) (now : Nat)
    (s ref : String) (hne : ¬(s = t.site ∧ ref = t.reference_no)) :
    (save_to_db db t now).filter (keyMatches s ref) =
      db.filter (keyMatches s ref) := by
  have hx : keyMatches s ref (⟨t, now⟩ : TenderRow) = false := by
    rw [Bool.eq_false_iff]
    intro hc
    simp only [keyMatches, Bool.and_eq_true, decide_eq_true_eq] at hc
    exact hne ⟨hc.1.symm, hc.2.symm⟩
  unfold save_to_db
  by_cases hany : db.any (keyMatches t.site t.reference_no)
  · rw [if_pos hany]
    refine filter_replace_indep s ref t.site t.reference_no ⟨t, now⟩ hx ?_ db
    intro row hrow
    rw [Bool.eq_false_iff]
    intro hc
    simp only [keyMatches, Bool.and_eq_true, decide_eq_true_eq] at hrow hc
    exact hne ⟨by rw [← hc.1, hrow.1], by rw [← hc.2, hrow.2]⟩
  · rw [if_neg hany]
    rw [List.filter_append]
    simp [hx]

lemma save_to_db_uniqueKeys (db : List TenderRow) (t : TenderData) (now : Nat)
    (hu : uniqueKeys db) : uniqueKeys (save_to_db db t now) := by
  intro s ref
  by_cases hk : s = t.site ∧ ref = t.reference_no
  · obtain ⟨hs, hr⟩ := hk
    subst hs; subst hr
    rw [save_to_db_filter_key db t now hu]
    simp
  · rw [save_to_db_filter_other db t now s ref hk]
    exact hu s ref

/-- C1: `save_to_db` is an upsert keyed on (site, reference_no): after a
call there is exactly one row for the key, and that row carries every
field of the new record with `last_updated` stamped by the gateway to
the wall clock of the call; rows under every other key are untouched and
the key-uniqueness invariant is preserved; upserting the identical
record twice (with the clock advanced between the calls) leaves exactly
one row for the key whose `last_updated` has advanced both times. -/
theorem C1_save_to_db_upsert (db : List TenderRow) (t : TenderData)
    (now t1 t2 : Nat) (hu : uniqueKeys db) (hadv : t1 < t2) :
    (save_to_db db t now).filter (keyMatches t.site t.reference_no) =
      [⟨t, now⟩] ∧
    uniqueKeys (save_to_db db t now) ∧
    (∀ site ref, ¬(site = t.site ∧ ref = t.reference_no) →
        (save_to_db db t now).filter (keyMatches site ref) =
          db.filter (keyMatches site ref)) ∧
    (save_to_db db t t1).filter (keyMatches t.site t.reference_no) =
      [⟨t, t1⟩] ∧
    (save_to_db (save_to_db db t t1) t t2).filter
        (keyMatches t.site t.reference_no) = [⟨t, t2⟩] ∧
    t1 < t2 := by
  refine ⟨save_to_db_filter_key db t now hu,
    save_to_db_uniqueKeys db t now hu,
    fun site ref hne => save_to_db_filter_other db t now site ref hne,
    save_to_db_filter_key db t t1 hu,
    save_to_db_filter_key _ t t2 (save_to_db_uniqueKeys db t t1 hu),
    hadv⟩

/-- Witness for C1 at a concrete record, an empty store and the clock
advancing from 1 to 2. -/
theorem C1_save_to_db_upsert_witness :
    (save_to_db [] sampleTender 5).filter
      (keyMatches sampleTender.site sampleTender.reference_no) =
        [⟨sampleTender, 5⟩] ∧
    (save_to_db (save_to_db [] sampleTender 1) sampleTender 2).filter
      (keyMatches sampleTender.site sampleTender.reference_no) =
        [⟨sampleTender, 2⟩] ∧
    (save_to_db [] sampleTender 5).filter (keyMatches "TED" "OTHER") =
      ([] : List TenderRow).filter (keyMatches "TED" "OTHER") := by
  have h := C1_save_to_db_upsert [] sampleTender 5 1 2
    (by intro s r; simp) (by decide)
  exact ⟨h.1, h.2.2.2.2.1, h.2.2.1 "TED" "OTHER" (by decide)⟩


/-! ### Theorems about the crawl orchestrator (claim C3) -/

/-- C3 counterexample: a TED search failing with a 403 that is not an
unsupported-field projection error escapes `crawl_ted` and aborts
`crawl_all`, which therefore does not return per-source counts. -/
theorem C3_counterexample :
    crawl_all_model (.ok ()) (.ok none) [] (some "key") (.ok [])
      (.error (.http ⟨403, "Forbidden"⟩)) (.ok []) 0 5 =
      .error (.http ⟨403, "Forbidden"⟩) ∧
    crawl_ted_model (.error (.http ⟨403, "Forbidden"⟩)) (.ok []) =
      .error (.http ⟨403, "Forbidden"⟩) := by
  decide

/-- C3 amended: failures inside the UNGM and SAM adapters are caught by
those adapters (count 0) and never abort the run, and a 400
unsupported-field TED error is retried without the field projection; but
`crawl_all` itself catches nothing, so it returns the per-source counts
with the wall-clock duration exactly when `crawl_ted` does not raise,
and a non-retryable error of the initial TED search propagates out of
`crawl_all` unchanged. -/
theorem C3_crawl_failure_isolation :
    (∀ ub us kw sk sp tf tr st et,
        crawl_all_model ub us kw sk sp tf tr st et =
          (crawl_ted_model tf tr).map
            (fun tedCount =>
              ⟨crawl_ungm_model ub us kw, crawl_sam_model sk sp, tedCount,
                et - st⟩)) ∧
    (∀ e us kw, crawl_ungm_model (.error e) us kw = 0) ∧
    (∀ e kw, crawl_ungm_model (.ok ()) (.error e) kw = 0) ∧
    (∀ sp, crawl_sam_model none sp = 0) ∧
    (∀ k e, crawl_sam_model (some k) (.error e) = 0) ∧
    (∀ notices,
        crawl_ted_model
          (.error (.http ⟨400, "unsupported field: description"⟩))
          (.ok notices) = .ok (ted_save_calls notices).length) ∧
    (∀ retryOutcome,
        crawl_ted_model (.error (.http ⟨403, "Forbidden"⟩)) retryOutcome =
          .error (.http ⟨403, "Forbidden"⟩)) := by
  refine ⟨?_, fun e us kw => rfl, fun e kw => rfl, fun sp => rfl,
    fun k e => rfl, ?_, ?_⟩
  · intro ub us kw sk sp tf tr st et
    unfold crawl_all_model
    cases h : crawl_ted_model tf tr <;> simp [h, Except.map]
  · intro notices
    unfold crawl_ted_model
    dsimp only
    rw [if_pos (by decide :
      should_retry_ted_without_fields ⟨400, "unsupported field: description"⟩ = true)]
  · intro retryOutcome
    unfold crawl_ted_model
    dsimp only
    rw [if_neg (by decide :
      ¬ should_retry_ted_without_fields ⟨403, "Forbidden"⟩ = true)]

/-! ### Theorems about continuation-token transport (claim C7) -/

/-- C7 counterexample: when every attempt fails with a client-error
status, the transport surfaces the error raised by the final literal
page fallback, not the first error (the one of the page-token
attempt). -/
theorem C7_counterexample :
    request_with_iteration_token (.error .clientErr) c7Oracle true =
      .error (.http ⟨400, "page"⟩) ∧
    (.error (.http ⟨400, "page"⟩) : Except TedExc Unit) ≠
      .error (.http ⟨400, "page-token"⟩) := by
  decide

/-- C7 amended: with a token present the transport tries the candidate
parameter names page-token, next-page-token, iteration-token and then
the literal page parameter, in that order; a 400 or 422 on a token-name
attempt moves on to the next candidate, any other error is surfaced at
once, and the outcome of the final page attempt, error included, is
surfaced as is, so when all attempts fail with client errors the error
surfaced is the last one, not the first.  Without a token the base
request is issued untouched. -/
theorem C7_token_transport :
    (∀ r1 r2 r3 r4 : Except TedExc Nat,
        request_with_iteration_token (.error .clientErr)
          (oracleOfFour r1 r2 r3 r4) true = tokenCascade r1 r2 r3 r4) ∧
    (∀ (base : Except TedExc Nat) r1 r2 r3 r4,
        request_with_iteration_token base (oracleOfFour r1 r2 r3 r4) false =
          base) := by
  constructor
  · intro r1 r2 r3 r4
    rcases r1 with e1 | v1
    · rcases e1 with h1 | _ | _ | _
      · by_cases hc1 : isClientErrorStatus h1
        · rcases r2 with e2 | v2
          · rcases e2 with h2 | _ | _ | _
            · by_cases hc2 : isClientErrorStatus h2
              · rcases r3 with e3 | v3
                · rcases e3 with h3 | _ | _ | _
                  · by_cases hc3 : isClientErrorStatus h3
                    · rcases r4 with e4 | v4
                      · cases e4 <;>
                          simp [request_with_iteration_token, requestTokenLoop,
                            token_param_names, oracleOfFour, tokenCascade,
                            hc1, hc2, hc3]
                      · simp [request_with_iteration_token, requestTokenLoop,
                          token_param_names, oracleOfFour, tokenCascade,
                          hc1, hc2, hc3]
                    · simp [request_with_iteration_token, requestTokenLoop,
                        token_param_names, oracleOfFour, tokenCascade,
                        hc1, hc2, hc3]
                  all_goals simp [request_with_iteration_token,
                    requestTokenLoop, token_param_names, oracleOfFour,
                    tokenCascade, hc1, hc2]
                · simp [request_with_iteration_token, requestTokenLoop,
                    token_param_names, oracleOfFour, tokenCascade, hc1, hc2]
              · simp [request_with_iteration_token, requestTokenLoop,
                  token_param_names, oracleOfFour, tokenCascade, hc1, hc2]
            all_goals simp [request_with_iteration_token, requestTokenLoop,
              token_param_names, oracleOfFour, tokenCascade, hc1]
          · simp [request_with_iteration_token, requestTokenLoop,
              token_param_names, oracleOfFour, tokenCascade, hc1]
        · simp [request_with_iteration_token, requestTokenLoop,
            token_param_names, oracleOfFour, tokenCascade, hc1]
      all_goals simp [request_with_iteration_token, requestTokenLoop,
        token_param_names, oracleOfFour, tokenCascade]
    · simp [request_with_iteration_token, requestTokenLoop,
        token_param_names, oracleOfFour, tokenCascade]
  · intro base r1 r2 r3 r4
    rfl

/-! ### Theorems about continuation iteration (claim C8) -/

/-- C8: the iteration loop yields the notices of each consumed response
and stops exactly at the first response carrying no continuation token;
run against a stub answering tokens A, B and then no token (final batch
empty), it yields exactly the records of calls one and two in order and
issues exactly three requests, whatever responses lie beyond; the
number of requests never exceeds the script length. -/
theorem C8_iterate_all_terminates :
    (∀ (nts : List String) ps, iterate_all_trace (⟨nts, none⟩ :: ps) = (nts, 1)) ∧
    (∀ (nts : List String) tok ps,
        iterate_all_trace (⟨nts, some tok⟩ :: ps) =
          (nts ++ (iterate_all_trace ps).1, (iterate_all_trace ps).2 + 1)) ∧
    (∀ (r1 r2 : List String) extra,
        iterate_all_trace
          (⟨r1, some "A"⟩ :: ⟨r2, some "B"⟩ :: ⟨[], none⟩ :: extra) =
          (r1 ++ r2, 3)) ∧
    (∀ script, (iterate_all_trace script).2 ≤ script.length) := by
  refine ⟨fun nts ps => rfl, fun nts tok ps => rfl, ?_, ?_⟩
  · intro r1 r2 extra
    simp [iterate_all_trace]
  · intro script
    induction script with
    | nil => simp [iterate_all_trace]
    | cons page rest ih =>
        cases h : page.next_page_token <;>
          simp [iterate_all_trace, h, List.length_cons] <;> omega


/-! ### Theorems about empty-reference dropping (claim C4) -/

lemma strNorm_ne_empty {s t : String} (h : strNorm s = some t) : t ≠ "" := by
  unfold strNorm at h
  by_cases hc : pyStrip s = ""
  · rw [if_pos hc] at h
    exact Option.noConfusion h
  · rw [if_neg hc] at h
    rw [← Option.some.inj h]
    exact hc

lemma firstSomeArr_ne_empty (f : JsonVal → Option String)
    (hf : ∀ v t, f v = some t → t ≠ "") :
    ∀ (items : JsonArr) (t : String), firstSomeArr f items = some t → t ≠ ""
  | .nil, t, h => by simp [firstSomeArr] at h
  | .cons v tl, t, h => by
      unfold firstSomeArr at h
      cases hv : f v with
      | some s =>
          rw [hv] at h
          exact Option.some.inj h ▸ hf v s hv
      | none =>
          rw [hv] at h
          exact firstSomeArr_ne_empty f hf tl t h

lemma firstSomeKeys_ne_empty (f : JsonVal → Option String)
    (hf : ∀ v t, f v = some t → t ≠ "") (fields : JsonObj) :
    ∀ (ks : List String) (t : String),
      firstSomeKeys f fields ks = some t → t ≠ ""
  | [], t, h => by simp [firstSomeKeys] at h
  | k :: ks, t, h => by
      unfold firstSomeKeys at h
      cases hk : objGet fields k with
      | some v =>
          rw [hk] at h
          dsimp only at h
          cases hv : f v with
          | some s =>
              rw [hv] at h
              exact Option.some.inj h ▸ hf v s hv
          | none =>
              rw [hv] at h
              exact firstSomeKeys_ne_empty f hf fields ks t h
      | none =>
          rw [hk] at h
          exact firstSomeKeys_ne_empty f hf fields ks t h

lemma normAux_ne_empty : ∀ (fuel : Nat) (v : JsonVal) (t : String),
    normAux fuel v = some t → t ≠ ""
  | 0, v, t, h => by simp [normAux] at h
  | fuel + 1, v, t, h => by
      cases v with
      | null => simp [normAux, normStep] at h
      | str s =>
          exact strNorm_ne_empty (by simpa [normAux, normStep] using h)
      | num n =>
          exact strNorm_ne_empty (by simpa [normAux, normStep] using h)
      | boolVal b =>
          exact strNorm_ne_empty (by simpa [normAux, normStep] using h)
      | arr items =>
          exact firstSomeArr_ne_empty _ (normAux_ne_empty fuel) items t
            (by simpa [normAux, normStep] using h)
      | obj fields =>
          exact firstSomeKeys_ne_empty _ (normAux_ne_empty fuel) fields
            ungmValueKeys t (by simpa [normAux, normStep] using h)

lemma normaliseUngmValue_ne_empty {v : JsonVal} {t : String}
    (h : normaliseUngmValue v = some t) : t ≠ "" :=
  normAux_ne_empty _ v t h

lemma extractKeyNorm_ne_empty {record : JsonObj} {k : String} {t : String}
    (h : extractKeyNorm record k = some t) : t ≠ "" := by
  unfold extractKeyNorm at h
  cases hv : extractKeyVal record k with
  | some x =>
      rw [hv] at h
      exact normaliseUngmValue_ne_empty h
  | none =>
      rw [hv] at h
      exact Option.noConfusion h

lemma extract_ungm_field_ne_empty (record : JsonObj) :
    ∀ (ks : List String) (t : String),
      extract_ungm_field record ks = some t → t ≠ ""
  | [], t, h => by simp [extract_ungm_field] at h
  | k :: ks, t, h => by
      unfold extract_ungm_field at h
      cases hk : extractKeyNorm record k with
      | some s =>
          rw [hk] at h
          exact Option.some.inj h ▸ extractKeyNorm_ne_empty hk
      | none =>
          rw [hk] at h
          exact extract_ungm_field_ne_empty record ks t h

lemma processUngmRecord_ref_ne_empty (keywords : List String)
    (record : JsonVal) (d : TenderData)
    (h : processUngmRecord keywords record = some d) :
    d.reference_no ≠ "" := by
  cases record with
  | obj fields =>
      unfold processUngmRecord at h
      dsimp only at h
      cases ht : extract_ungm_field fields ungmTitleKeys with
      | none => rw [ht] at h; exact Option.noConfusion h
      | some title =>
          rw [ht] at h
          dsimp only at h
          by_cases hkw : (!keywords.isEmpty &&
              !(keywords.any fun kw => containsSub (pyLower title) kw)) = true
          · rw [if_pos hkw] at h
            exact Option.noConfusion h
          · rw [if_neg hkw] at h
            cases hr : extract_ungm_field fields ungmRefKeys with
            | none => rw [hr] at h; exact Option.noConfusion h
            | some ref =>
                rw [hr] at h
                have hd := Option.some.inj h
                rw [← hd]
                exact extract_ungm_field_ne_empty fields ungmRefKeys ref hr
  | null => exact Option.noConfusion h
  | boolVal b => exact Option.noConfusion h
  | num n => exact Option.noConfusion h
  | str s => exact Option.noConfusion h
  | arr items => exact Option.noConfusion h

lemma natDigitsAux_ne_nil (fuel n : Nat) : natDigitsAux (fuel + 1) n ≠ [] := by
  unfold natDigitsAux
  by_cases h : n < 10
  · simp [h]
  · simp [h]

lemma natToStr_ne_empty (n : Nat) : natToStr n ≠ "" := by
  unfold natToStr
  intro h
  have h2 := congrArg String.data h
  exact natDigitsAux_ne_nil n n h2

lemma intToStr_ne_empty (n : Int) : intToStr n ≠ "" := by
  cases n with
  | ofNat m => exact natToStr_ne_empty m
  | negSucc m =>
      intro h
      have h2 := congrArg String.data h
      simp [intToStr, String.data_append] at h2

lemma jvStr_ne_empty_of_truthy (v : JsonVal) (h : jvTruthy v = true) :
    jvStr v ≠ "" := by
  cases v with
  | null => simp [jvTruthy] at h
  | boolVal b =>
      cases b
      · simp [jvTruthy] at h
      · simp [jvStr]
  | num n => exact intToStr_ne_empty n
  | str s => simpa [jvTruthy] using h
  | arr items => simp [jvStr]
  | obj fields => simp [jvStr]

lemma processSamNotice_ref_ne_empty (notice : JsonVal) (d : TenderData)
    (h : processSamNotice notice = some d) : d.reference_no ≠ "" := by
  cases notice with
  | obj n =>
      unfold processSamNotice at h
      dsimp only at h
      by_cases htr : (!jvTruthy (jvOr (jvOr (objGetD n "solicitationNumber")
          (objGetD n "noticeId")) (objGetD n "id"))) = true
      · rw [if_pos htr] at h
        exact Option.noConfusion h
      · rw [if_neg htr] at h
        have hd := Option.some.inj h
        rw [← hd]
        refine jvStr_ne_empty_of_truthy _ ?_
        cases hb : jvTruthy (jvOr (jvOr (objGetD n "solicitationNumber")
            (objGetD n "noticeId")) (objGetD n "id"))
        · exact absurd (by rw [hb]; rfl) htr
        · rfl
  | null => exact Option.noConfusion h
  | boolVal b => exact Option.noConfusion h
  | num n => exact Option.noConfusion h
  | str s => exact Option.noConfusion h
  | arr items => exact Option.noConfusion h

lemma all_filterMap {α β : Type} (f : α → Option β) (p : β → Bool)
    (hf : ∀ x y, f x = some y → p y = true) (l : List α) :
    (l.filterMap f).all p = true := by
  induction l with
  | nil => rfl
  | cons x xs ih =>
      rw [List.filterMap_cons]
      cases hx : f x with
      | none => exact ih
      | some y =>
          rw [List.all_cons, hf x y hx, ih]
          rfl

/-- C4 counterexample: the TED crawl loop performs no empty-reference
check; a notice carrying no publication number is passed to
`save_to_db` with `reference_no` equal to the empty string. -/
theorem C4_counterexample :
    (ted_save_calls [JsonObj.nil]).map (fun d => d.reference_no) = [""] ∧
    (processTedNotice JsonObj.nil).reference_no = "" := by
  decide

/-- C4 amended: the UNGM JSON-processing path and the SAM crawl loop
drop every raw record whose extracted reference number is empty before
persistence, so their save calls never carry an empty `reference_no`;
the TED crawl loop performs no such check and calls `save_to_db` with an
empty reference for a notice lacking a publication number. -/
theorem C4_empty_reference_dropped :
    (∀ payload keywords,
        (process_ungm_json_saves payload keywords).all
          (fun d => d.reference_no != "") = true) ∧
    (∀ notices,
        (sam_save_calls notices).all (fun d => d.reference_no != "") = true) ∧
    (ted_save_calls [JsonObj.nil]).map (fun d => d.reference_no) = [""] := by
  refine ⟨?_, ?_, by decide⟩
  · intro payload keywords
    apply all_filterMap
    intro x y hxy
    have := processUngmRecord_ref_ne_empty keywords x y hxy
    simpa using this
  · intro notices
    apply all_filterMap
    intro x y hxy
    have := processSamNotice_ref_ne_empty x y hxy
    simpa using this

/-! ### Theorems about raw-record container extraction (claim C6) -/

lemma firstListValued_foldr (p : JsonObj) :
    ∀ ks : List String,
      firstListValued p ks =
        ks.foldr (fun k acc => (asArrOpt (objGet p k)).getD acc) .nil := by
  intro ks
  induction ks with
  | nil => rfl
  | cons k ks ih =>
      rw [List.foldr_cons, ← ih]
      cases hk : objGet p k with
      | none => simp [firstListValued, hk, asArrOpt]
      | some v => cases v <;> simp [firstListValued, hk, asArrOpt]

/-- C6 counterexample: a payload carrying both a `results` and an
`items` list is read differently by the two extractors, so they do not
implement the same priority-list strategy. -/
theorem C6_counterexample :
    extract_results (jobj [("results", .arr (jarr [.str "from-results"])),
        ("items", .arr (jarr [.str "from-items"]))]) =
      jarr [.str "from-results"] ∧
    ungm_container (jobj [("results", .arr (jarr [.str "from-results"])),
        ("items", .arr (jarr [.str "from-items"]))]) =
      jarr [.str "from-items"] ∧
    extract_results (jobj [("results", .arr (jarr [.str "from-results"])),
        ("items", .arr (jarr [.str "from-items"]))]) ≠
      ungm_container (jobj [("results", .arr (jarr [.str "from-results"])),
        ("items", .arr (jarr [.str "from-items"]))]) := by
  decide

/-- C6 amended: the structured-API extractor checks the container keys
results, items, notices, data in that order and returns the first
list-valued match, yielding zero records when no key matches; the
anti-forgery JSON extractor also takes the first list-valued key of a
fixed priority list, but over the different list items, results, data,
notices, Notices, records, Records, rows, Rows, so the two extractors
can disagree on payloads holding several container keys. -/
theorem C6_container_extraction :
    (∀ p, extract_results p =
        (asArrOpt (objGet p "results")).getD
          ((asArrOpt (objGet p "items")).getD
            ((asArrOpt (objGet p "notices")).getD
              ((asArrOpt (objGet p "data")).getD .nil)))) ∧
    (∀ p, ungm_container p =
        (asArrOpt (objGet p "items")).getD
          ((asArrOpt (objGet p "results")).getD
            ((asArrOpt (objGet p "data")).getD
              ((asArrOpt (objGet p "notices")).getD
                ((asArrOpt (objGet p "Notices")).getD
                  ((asArrOpt (objGet p "records")).getD
                    ((asArrOpt (objGet p "Records")).getD
                      ((asArrOpt (objGet p "rows")).getD
                        ((asArrOpt (objGet p "Rows")).getD .nil))))))))) ∧
    extract_results (jobj [("foo", .str "x")]) = .nil ∧
    extract_results JsonObj.nil = .nil := by
  refine ⟨?_, ?_, by decide, rfl⟩
  · intro p
    rw [extract_results, firstListValued_foldr]
    rfl
  · intro p
    rw [ungm_container, firstListValued_foldr]
    rfl


/-! ### Theorems about API-key masking (claim C9) -/

lemma maskCharsAux_nil (fuel : Nat) : maskCharsAux fuel [] = [] := by
  cases fuel <;> rfl

lemma matchCI_apikey (tail : List Char) :
    matchCIAux "api_key=".data
      ('a' :: 'p' :: 'i' :: '_' :: 'k' :: 'e' :: 'y' :: '=' :: tail) =
      some (['a', 'p', 'i', '_', 'k', 'e', 'y', '='], tail) := rfl

lemma dropWhile_all_ne (l : List Char) (h : ∀ x ∈ l, x ≠ '&') :
    l.dropWhile (fun x => x ≠ '&') = [] := by
  induction l with
  | nil => rfl
  | cons c cs ih =>
      have hc : c ≠ '&' := h c (List.mem_cons_self c cs)
      rw [List.dropWhile_cons,
        if_pos (show (decide (c ≠ '&')) = true from decide_eq_true hc)]
      exact ih (fun x hx => h x (List.mem_cons_of_mem c hx))

lemma maskCharsAux_apikey (f : Nat) (c : Char) (rest : List Char)
    (hall : ∀ x ∈ c :: rest, x ≠ '&') :
    maskCharsAux (f + 1)
      ('a' :: 'p' :: 'i' :: '_' :: 'k' :: 'e' :: 'y' :: '=' :: c :: rest) =
      ['a', 'p', 'i', '_', 'k', 'e', 'y', '=', '*', '*', '*'] := by
  have hc : c ≠ '&' := hall c (List.mem_cons_self c rest)
  rw [maskCharsAux, matchCI_apikey (c :: rest)]
  dsimp only
  rw [if_neg hc]
  rw [dropWhile_all_ne (c :: rest) hall, maskCharsAux_nil]
  rfl

lemma mask_api_key_value (v : String) (hne : v ≠ "")
    (hamp : ∀ x ∈ v.data, x ≠ '&') :
    mask_api_key ("api_key=" ++ v) = "api_key=***" := by
  obtain ⟨cs⟩ := v
  cases cs with
  | nil => exact absurd rfl hne
  | cons c rest =>
      have hall : ∀ x ∈ c :: rest, x ≠ '&' := hamp
      unfold mask_api_key
      rw [show ("api_key=" ++ String.mk (c :: rest)).data =
        'a' :: 'p' :: 'i' :: '_' :: 'k' :: 'e' :: 'y' :: '=' :: c :: rest from rfl]
      rw [show ('a' :: 'p' :: 'i' :: '_' :: 'k' :: 'e' :: 'y' :: '=' :: c ::
        rest).length = rest.length + 8 + 1 from by simp_arith [List.length_cons]]
      rw [maskCharsAux_apikey (rest.length + 8) c rest hall]

/-- C9 counterexample: the message recorded by the HTTPError branch of
`crawl_sam` masks the exception text but appends the response-body
detail unmasked, so a body echoing the api_key parameter is recorded
with the key value in cleartext. -/
theorem C9_counterexample :
    containsSub
      (sam_http_error_log
        "403 Client Error for url: https://api.sam.gov/prod/opportunities/v1/search?api_key=SECRET123&limit=100"
        (some "invalid api_key=SECRET123 supplied"))
      "api_key=SECRET123" = true := by
  decide

/-- C9 amended: the SAM HTTPError log line is the masked exception text
followed by the raw response-body detail; within the exception text
every api_key value is replaced by three asterisks, but the appended
detail is not masked at all. -/
theorem C9_api_key_masking :
    (∀ excText detail,
        sam_http_error_log excText detail =
          "SAM.gov crawling failed: " ++ mask_api_key excText ++
            samDetailText detail) ∧
    (∀ v : String, v ≠ "" → (∀ x ∈ v.data, x ≠ '&') →
        mask_api_key ("api_key=" ++ v) = "api_key=***") ∧
    mask_api_key
        "403 Client Error: https://api.sam.gov/search?api_key=SECRET123&limit=100" =
      "403 Client Error: https://api.sam.gov/search?api_key=***&limit=100" ∧
    containsSub
        (mask_api_key
          "403 Client Error: https://api.sam.gov/search?api_key=SECRET123&limit=100")
        "SECRET123" = false ∧
    (∀ detail, samDetailText (some detail) =
        (if detail ≠ "" then " - " ++ detail else "")) := by
  refine ⟨fun excText detail => rfl, mask_api_key_value, by decide, by decide,
    fun detail => rfl⟩

/-- Witness for C9: the masking clause applied at a concrete key
value. -/
theorem C9_api_key_masking_witness :
    mask_api_key ("api_key=" ++ "SECRET123") = "api_key=***" :=
  C9_api_key_masking.2.1 "SECRET123" (by decide) (by decide)


/-! ### Theorems about TED configuration precedence (claim C10) -/

lemma tedApplyQuery_query (d : TedConfigDict) (s : TedSettings) :
    (tedApplyQuery d s).query =
      (match d.query with
       | some q => if pyStrip q ≠ "" then q else s.query
       | none => s.query) := by
  unfold tedApplyQuery
  cases d.query with
  | none => rfl
  | some q =>
      dsimp only
      by_cases hc : pyStrip q ≠ ""
      · rw [if_pos hc, if_pos hc]
      · rw [if_neg hc, if_neg hc]

lemma tedApplyFields_query (d : TedConfigDict) (s : TedSettings) :
    (tedApplyFields d s).query = s.query := by
  unfold tedApplyFields
  cases d.fields with
  | none => rfl
  | some fs =>
      dsimp only
      by_cases hc : ensure_list fs ≠ []
      · rw [if_pos hc]
      · rw [if_neg hc]

lemma tedApplyLimit_query (d : TedConfigDict) (s : TedSettings) :
    (tedApplyLimit d s).query = s.query := by
  unfold tedApplyLimit
  cases d.limit with
  | none => rfl
  | some v =>
      dsimp only
      by_cases hc : v > 0
      · rw [if_pos hc]
      · rw [if_neg hc]

lemma tedApplySortField_query (d : TedConfigDict) (s : TedSettings) :
    (tedApplySortField d s).query = s.query := by
  unfold tedApplySortField
  cases orStrOpt d.sort_field d.sortBy with
  | none => rfl
  | some v =>
      dsimp only
      by_cases hc : pyStrip v ≠ ""
      · rw [if_pos hc]
      · rw [if_neg hc]

lemma tedApplySortOrder_query (d : TedConfigDict) (s : TedSettings) :
    (tedApplySortOrder d s).query = s.query := by
  unfold tedApplySortOrder
  cases orStrOpt d.sort_order d.order with
  | none => rfl
  | some v =>
      dsimp only
      by_cases hc : pyStrip v ≠ ""
      · rw [if_pos hc]
      · rw [if_neg hc]

lemma tedApplyMode_query (d : TedConfigDict) (s : TedSettings) :
    (tedApplyMode d s).query = s.query := by
  unfold tedApplyMode
  cases d.mode with
  | none => rfl
  | some v =>
      dsimp only
      by_cases hc : pyStrip v ≠ ""
      · rw [if_pos hc]
      · rw [if_neg hc]

lemma tedApplyPage_query (d : TedConfigDict) (s : TedSettings) :
    (tedApplyPage d s).query = s.query := by
  unfold tedApplyPage
  cases d.page with
  | none => rfl
  | some v =>
      dsimp only
      by_cases hc : v > 0
      · rw [if_pos hc]
      · rw [if_neg hc]

lemma default_ted_query_ne_empty (tf tt : String) :
    default_ted_query tf tt ≠ "" := by
  intro h
  have h2 := congrArg String.length h
  rw [show default_ted_query tf tt =
    ((((((((dateClause tf tt ++ " AND ") ++
      "((place-of-performance.country:DE OR buyer-country:DE) OR (place-of-performance.country:FR OR buyer-country:FR))") ++
      " AND ") ++ "(classification-cpv:33*)") ++ " AND ") ++
      "title:(PCR OR reagent OR diagnostic)") ++ " AND ") ++
      "form-type:(F15)") from rfl] at h2
  simp only [String.length_append] at h2
  have h5 : (" AND " : String).length = 5 := rfl
  have h0 : ("" : String).length = 0 := rfl
  omega

lemma parse_jsonDict_query (tf tt : String) (d : TedConfigDict) :
    (parse_ted_config tf tt (.jsonDict d)).1.query =
      (match d.query with
       | some q => if pyStrip q ≠ "" then q else default_ted_query tf tt
       | none => default_ted_query tf tt) := by
  unfold parse_ted_config
  dsimp only
  rw [apply_ite (fun s : TedSettings => s.query)]
  simp only [tedApplyPage_query, tedApplyMode_query, tedApplySortOrder_query,
    tedApplySortField_query, tedApplyLimit_query, tedApplyFields_query,
    tedApplyQuery_query]
  cases hdq : d.query with
  | none =>
      dsimp only
      rw [if_neg (default_ted_query_ne_empty tf tt)]
  | some q =>
      dsimp only
      by_cases hstrip : pyStrip q = ""
      · rw [if_neg (not_not_intro hstrip),
          if_neg (default_ted_query_ne_empty tf tt)]
      · rw [if_pos hstrip]
        have hq : q ≠ "" := fun hc => hstrip (by rw [hc]; rfl)
        rw [if_neg hq]

lemma parse_jsonDict_query_ne_empty (tf tt : String) (d : TedConfigDict) :
    (parse_ted_config tf tt (.jsonDict d)).1.query ≠ "" := by
  rw [parse_jsonDict_query]
  cases d.query with
  | none => exact default_ted_query_ne_empty tf tt
  | some q =>
      dsimp only
      by_cases hstrip : pyStrip q = ""
      · rw [if_neg (not_not_intro hstrip)]
        exact default_ted_query_ne_empty tf tt
      · rw [if_pos hstrip]
        exact fun hc => hstrip (by rw [hc]; rfl)

/-- C10: when the parsed TED configuration dict carries both a non-blank
top-level query string and a builder object, the explicit query wins and
is kept unchanged in the returned settings; a builder-derived query
would be substituted only for a blank accumulated query, which never
happens (a blank or absent top-level query leaves the non-empty default
query in place), and `crawl_ted` sends exactly the settings query to the
search client; at a concrete input with conflicting builder countries
the explicit query survives while the returned builder carries the
override. -/
theorem C10_explicit_query_wins :
    (∀ tf tt (d : TedConfigDict),
        (parse_ted_config tf tt (.jsonDict d)).1.query =
          (match d.query with
           | some q => if pyStrip q ≠ "" then q else default_ted_query tf tt
           | none => default_ted_query tf tt)) ∧
    (∀ tf tt (d : TedConfigDict),
        crawl_ted_search_query (parse_ted_config tf tt (.jsonDict d)).1 tf tt =
          (parse_ted_config tf tt (.jsonDict d)).1.query) ∧
    (parse_ted_config "2025-06-18" "2025-09-16"
        (.jsonDict { query := some "title:(custom override)",
                     builder := some { countries := some ["IT"] } })).1.query =
      "title:(custom override)" ∧
    (parse_ted_config "2025-06-18" "2025-09-16"
        (.jsonDict { query := some "title:(custom override)",
                     builder := some { countries := some ["IT"] } })).2.countries =
      ["IT"] := by
  refine ⟨parse_jsonDict_query, ?_, by decide, by decide⟩
  intro tf tt d
  unfold crawl_ted_search_query
  rw [if_pos (parse_jsonDict_query_ne_empty tf tt d)]

end MCPBid
